/-
Verification of the command-routing and statement-validation gateway of an
MSSQL MCP server (src/server.py and src/simplified_server.py).

The Python code is shallowly embedded: pure string manipulation becomes Lean
string functions over `List Char`; the pyodbc driver is an oracle (`Db`)
whose connect/execute outcomes are quantified over; each handler returns its
outcome together with the list of database events (`Ev`) it performed, so
that "no SQL reaches the database" is the absence of an `Ev.exec` event.
Python exceptions are values of `PyErr` threaded through `Except`.
-/
import Mathlib

/-! ### Python string primitives -/

/-- Whitespace characters stripped by Python's `str.strip()` (ASCII range). -/
def isPySpace (c : Char) : Bool :=
  c == ' ' || c == '\t' || c == '\n' || c == '\r' || c == '\x0b' || c == '\x0c'

/-- Drop leading whitespace, as in Python `str.lstrip()`. -/
def lstripChars (l : List Char) : List Char := l.dropWhile isPySpace

/-- Drop trailing whitespace, as in Python `str.rstrip()`. -/
def rstripChars (l : List Char) : List Char := (l.reverse.dropWhile isPySpace).reverse

/-- Python `str.strip()`: drop whitespace at both ends. -/
def pyStripChars (l : List Char) : List Char := lstripChars (rstripChars l)

/-- Python `str.strip()` on strings. -/
def pyStrip (s : String) : String := ⟨pyStripChars s.data⟩

/-- Python `str.upper()` (ASCII model; SQL keywords are ASCII). -/
def pyUpper (s : String) : String := ⟨s.data.map Char.toUpper⟩

/-- Python slice `s[:n]`. -/
def pyTake (n : Nat) (s : String) : String := ⟨s.data.take n⟩

/-- Python `len(s)` (code points). -/
def pyLen (s : String) : Nat := s.data.length

/-- `p` is a prefix of `l`, computably (Python `str.startswith`). -/
def prefixChars : List Char → List Char → Bool
  | [], _ => true
  | _ :: _, [] => false
  | a :: as, b :: bs => a == b && prefixChars as bs

/-- Python `s.startswith(p)`. -/
def strStartsWith (s p : String) : Bool := prefixChars p.data s.data

/-- `pat` occurs as a contiguous substring of `l` (Python `pat in s`). -/
def subChars (pat l : List Char) : Bool :=
  (List.range (l.length + 1)).any (fun i => prefixChars pat (l.drop i))

/-- Python `pat in s` on strings. -/
def strContainsSub (pat s : String) : Bool := subChars pat.data s.data

/-- Python `sep.join(xs)`. -/
def pyJoin (sep : String) : List String → String
  | [] => ""
  | [s] => s
  | s :: rest => s ++ sep ++ pyJoin sep rest

/-- Split a character list at every newline (auxiliary for `pySplitlines`). -/
def splitNl : List Char → List (List Char)
  | [] => [[]]
  | c :: rest =>
    if c = '\n' then [] :: splitNl rest
    else
      match splitNl rest with
      | [] => [[c]]
      | h :: t => (c :: h) :: t

/-- Python `str.splitlines()` restricted to `'\n'` as the line terminator:
a trailing newline does not create an extra empty line, and the empty
string has no lines. -/
def pySplitlines (s : String) : List String :=
  if s.data = [] then []
  else if s.data.getLast? = some '\n' then ((splitNl s.data).dropLast).map String.mk
  else (splitNl s.data).map String.mk

/-! ### Exceptions, outcomes and database events -/

/-- Python exceptions observable at the single-request boundary. -/
inductive PyErr where
  | valueError (msg : String)
  | keyError (key : String)
  | dbError (msg : String)
deriving DecidableEq, Repr

/-- Python `str(e)` for the exceptions above (`str(KeyError(k))` is `'k'`
with quotes). -/
def pyErrStr : PyErr → String
  | .valueError m => m
  | .keyError k => "\x27" ++ k ++ "\x27"
  | .dbError m => m

deriving instance DecidableEq for Except

/-- The `TextContent(type="text", text=...)` payload returned to the client. -/
structure TextContent where
  text : String
deriving DecidableEq, Repr

/-- Database events performed by a handler, in order. -/
inductive Ev where
  | connect
  | exec (sql : String)
  | commit
deriving DecidableEq, Repr

/-- The driver's answer to one `cursor.execute` + fetch: column names from
`cursor.description`, the fetched rows (a cell is `none` for SQL NULL),
and `cursor.rowcount`. -/
structure QRes where
  cols : List String
  rows : List (List (Option String))
  rowcount : Int
deriving DecidableEq, Repr

/-- One result set of a multi-statement batch: `description` is `none` for
cursor positions without column metadata (e.g. after `DECLARE`/`INSERT`). -/
structure ResultSet where
  description : Option (List String)
  rows : List (List (Option String))
deriving DecidableEq, Repr

/-- The pyodbc driver as an oracle: the outcome of `pyodbc.connect`, of a
single-result-set `cursor.execute`, and of a batch execute whose cursor
walks a list of result sets. -/
structure Db where
  connectOk : Except PyErr Unit
  run : String → Except PyErr QRes
  runBatch : String → Except PyErr (List ResultSet)

/-! ### Result rendering (Execution & Result Normalizer) -/

/-- `str(value) if value is not None else ""` used for CSV cells. -/
def cellStr : Option String → String
  | some v => v
  | none => ""

/-- The CSV accumulation loop of `_execute_read_query` /
`_execute_database_operation`: header line, then one line per row, each
line terminated by `"\n"`, no quoting or escaping. -/
def readCsv (cols : List String) (rows : List (List (Option String))) : String :=
  rows.foldl
    (fun acc row => acc ++ pyJoin (",") (row.map cellStr) ++ "\n")
    (pyJoin (",") cols ++ "\n")

/-- The lines the CSV renderer is meant to produce: the comma-joined column
names, then the comma-joined stringified cells of each row. -/
def csvLines (cols : List String) (rows : List (List (Option String))) : List String :=
  pyJoin (",") cols :: rows.map (fun r => pyJoin (",") (r.map cellStr))

/-! ### Handlers of the main server (src/server.py) -/

/-- `_execute_read_query`: rejects non-SELECT text before connecting,
otherwise executes and renders the rows; an empty fetch yields the
"No results found" status. -/
def executeReadQuery (query : String) (db : Db) :
    Except PyErr (List TextContent) × List Ev :=
  if strStartsWith (pyUpper (pyStrip query)) ("SELECT") = false then
    (.error (.valueError ("Only SELECT queries are allowed for read_query")), [])
  else
    match db.connectOk with
    | .error e => (.error e, [.connect])
    | .ok _ =>
      match db.run query with
      | .error e => (.error e, [.connect, .exec query])
      | .ok res =>
        if res.rows = [] then
          (.ok [⟨"No results found"⟩], [.connect, .exec query])
        else
          (.ok [⟨readCsv res.cols res.rows⟩], [.connect, .exec query])

/-- The `allowed_commands` prefix list of `_execute_write_query`. -/
def allowedCommands : List String :=
  ["INSERT", "UPDATE", "DELETE",
   "CREATE PROCEDURE", "ALTER PROCEDURE", "DROP PROCEDURE",
   "EXEC", "EXECUTE",
   "CREATE VIEW", "ALTER VIEW", "DROP VIEW",
   "CREATE INDEX", "DROP INDEX"]

/-- The class gate of `_execute_write_query`. -/
def writeAllowed (query : String) : Bool :=
  allowedCommands.any (fun c => strStartsWith (pyUpper (pyStrip query)) c)

/-- `_execute_write_query`: gate on the allowed prefixes, execute, commit,
and return a per-class status text (affected-row count for DML, a fixed
sentence for DDL and EXEC). -/
def executeWriteQuery (query : String) (db : Db) :
    Except PyErr (List TextContent) × List Ev :=
  let qu := pyUpper (pyStrip query)
  if writeAllowed query = false then
    (.error (.valueError ("Only INSERT, UPDATE, DELETE, CREATE/ALTER/DROP PROCEDURE, CREATE/ALTER/DROP VIEW, CREATE/DROP INDEX, and EXEC queries are allowed for write_query")), [])
  else
    match db.connectOk with
    | .error e => (.error e, [.connect])
    | .ok _ =>
      match db.run query with
      | .error e => (.error e, [.connect, .exec query])
      | .ok res =>
        if strStartsWith qu ("CREATE PROCEDURE") || strStartsWith qu ("ALTER PROCEDURE")
            || strStartsWith qu ("DROP PROCEDURE") then
          (.ok [⟨"Stored procedure operation executed successfully."⟩],
           [.connect, .exec query, .commit])
        else if strStartsWith qu ("CREATE VIEW") || strStartsWith qu ("ALTER VIEW")
            || strStartsWith qu ("DROP VIEW") then
          (.ok [⟨"View operation executed successfully."⟩],
           [.connect, .exec query, .commit])
        else if strStartsWith qu ("CREATE INDEX") || strStartsWith qu ("DROP INDEX") then
          (.ok [⟨"Index operation executed successfully."⟩],
           [.connect, .exec query, .commit])
        else if strStartsWith qu ("EXEC") || strStartsWith qu ("EXECUTE") then
          (.ok [⟨"Stored procedure executed successfully."⟩],
           [.connect, .exec query, .commit])
        else
          (.ok [⟨"Query executed successfully. " ++ toString res.rowcount ++ " rows affected."⟩],
           [.connect, .exec query, .commit])

/-- `_create_table`: gate on the `CREATE TABLE` prefix, execute, commit. -/
def createTable (query : String) (db : Db) :
    Except PyErr (List TextContent) × List Ev :=
  if strStartsWith (pyUpper (pyStrip query)) ("CREATE TABLE") = false then
    (.error (.valueError ("Only CREATE TABLE statements are allowed")), [])
  else
    match db.connectOk with
    | .error e => (.error e, [.connect])
    | .ok _ =>
      match db.run query with
      | .error e => (.error e, [.connect, .exec query])
      | .ok _ => (.ok [⟨"Table created successfully"⟩], [.connect, .exec query, .commit])

/-- `_create_function`: gate on the `CREATE FUNCTION` prefix, execute,
commit. -/
def createFunction (script : String) (db : Db) :
    Except PyErr (List TextContent) × List Ev :=
  if strStartsWith (pyUpper (pyStrip script)) ("CREATE FUNCTION") = false then
    (.error (.valueError ("Only CREATE FUNCTION statements are allowed")), [])
  else
    match db.connectOk with
    | .error e => (.error e, [.connect])
    | .ok _ =>
      match db.run script with
      | .error e => (.error e, [.connect, .exec script])
      | .ok _ =>
        (.ok [⟨"Function created successfully"⟩], [.connect, .exec script, .commit])

/-- `_modify_function`: gate on the `ALTER FUNCTION` prefix, execute,
commit. -/
def modifyFunction (script : String) (db : Db) :
    Except PyErr (List TextContent) × List Ev :=
  if strStartsWith (pyUpper (pyStrip script)) ("ALTER FUNCTION") = false then
    (.error (.valueError ("Only ALTER FUNCTION statements are allowed")), [])
  else
    match db.connectOk with
    | .error e => (.error e, [.connect])
    | .ok _ =>
      match db.run script with
      | .error e => (.error e, [.connect, .exec script])
      | .ok _ =>
        (.ok [⟨"Function modified successfully"⟩], [.connect, .exec script, .commit])

/-- `_create_procedure`: gate on the `CREATE PROCEDURE` prefix, execute,
commit. -/
def createProcedure (script : String) (db : Db) :
    Except PyErr (List TextContent) × List Ev :=
  if strStartsWith (pyUpper (pyStrip script)) ("CREATE PROCEDURE") = false then
    (.error (.valueError ("Only CREATE PROCEDURE statements are allowed")), [])
  else
    match db.connectOk with
    | .error e => (.error e, [.connect])
    | .ok _ =>
      match db.run script with
      | .error e => (.error e, [.connect, .exec script])
      | .ok _ =>
        (.ok [⟨"Procedure created successfully"⟩], [.connect, .exec script, .commit])

/-- `_modify_procedure`: gate on the `ALTER PROCEDURE` prefix, execute,
commit. -/
def modifyProcedure (script : String) (db : Db) :
    Except PyErr (List TextContent) × List Ev :=
  if strStartsWith (pyUpper (pyStrip script)) ("ALTER PROCEDURE") = false then
    (.error (.valueError ("Only ALTER PROCEDURE statements are allowed")), [])
  else
    match db.connectOk with
    | .error e => (.error e, [.connect])
    | .ok _ =>
      match db.run script with
      | .error e => (.error e, [.connect, .exec script])
      | .ok _ =>
        (.ok [⟨"Procedure modified successfully"⟩], [.connect, .exec script, .commit])

/-- `_create_view`: gate on the `CREATE VIEW` prefix, execute, commit. -/
def createView (script : String) (db : Db) :
    Except PyErr (List TextContent) × List Ev :=
  if strStartsWith (pyUpper (pyStrip script)) ("CREATE VIEW") = false then
    (.error (.valueError ("Only CREATE VIEW statements are allowed")), [])
  else
    match db.connectOk with
    | .error e => (.error e, [.connect])
    | .ok _ =>
      match db.run script with
      | .error e => (.error e, [.connect, .exec script])
      | .ok _ =>
        (.ok [⟨"View created successfully"⟩], [.connect, .exec script, .commit])

/-- `_modify_view`: gate on the `ALTER VIEW` prefix, execute, commit. -/
def modifyView (script : String) (db : Db) :
    Except PyErr (List TextContent) × List Ev :=
  if strStartsWith (pyUpper (pyStrip script)) ("ALTER VIEW") = false then
    (.error (.valueError ("Only ALTER VIEW statements are allowed")), [])
  else
    match db.connectOk with
    | .error e => (.error e, [.connect])
    | .ok _ =>
      match db.run script with
      | .error e => (.error e, [.connect, .exec script])
      | .ok _ =>
        (.ok [⟨"View modified successfully"⟩], [.connect, .exec script, .commit])

/-- `_create_index`: gate on the `CREATE INDEX` prefix, execute, commit. -/
def createIndex (script : String) (db : Db) :
    Except PyErr (List TextContent) × List Ev :=
  if strStartsWith (pyUpper (pyStrip script)) ("CREATE INDEX") = false then
    (.error (.valueError ("Only CREATE INDEX statements are allowed")), [])
  else
    match db.connectOk with
    | .error e => (.error e, [.connect])
    | .ok _ =>
      match db.run script with
      | .error e => (.error e, [.connect, .exec script])
      | .ok _ =>
        (.ok [⟨"Index created successfully"⟩], [.connect, .exec script, .commit])

/-! ### Diagnostic handlers: result-set skip loop and failed-logins gate -/

/-- The `while cursor.description is None: if not cursor.nextset(): break`
loop: the cursor is the list of remaining result sets, `nextset` pops one,
and the loop stops at the first set with column metadata or when none
remains. -/
def skipToColumns : List ResultSet → List ResultSet
  | [] => []
  | rs :: rest => if rs.description.isSome then rs :: rest else skipToColumns rest

/-- `rows = cursor.fetchall() if cursor.description else []` after the skip
loop (a `description` that is an empty tuple is falsy in Python). -/
def fetchAfterSkip (sets : List ResultSet) : List (List (Option String)) :=
  match skipToColumns sets with
  | [] => []
  | rs :: _ =>
    match rs.description with
    | some (_ :: _) => rs.rows
    | _ => []

/-- The T-SQL batch built by `_get_failed_logins` (f-string interpolation of
the validated minute count). -/
def failedLoginsSql (t : Int) : String :=
  "\n        DECLARE @Since datetime = DATEADD(MINUTE, -" ++ toString t ++
  ", GETDATE());\n    \n        IF OBJECT_ID(\x27tempdb..#FailedLogins\x27) IS NOT NULL DROP TABLE #FailedLogins;\n        CREATE TABLE #FailedLogins (\n            LogDate datetime,\n            ProcessInfo nvarchar(100),\n            Text nvarchar(max)\n        );\n    \n        DECLARE @LogNumber int = 0;\n        WHILE (@LogNumber <= 6)\n        BEGIN\n            INSERT INTO #FailedLogins\n            EXEC sp_readerrorlog @LogNumber, 1, \x27Login failed\x27;\n            SET @LogNumber = @LogNumber + 1;\n        END\n    \n        SELECT\n            LogDate,\n            ProcessInfo,\n            Text\n        FROM #FailedLogins\n        WHERE LogDate >= @Since\n        ORDER BY LogDate DESC;\n        "

/-- `str(x)` for a fetched cell used inside an f-string (`None` prints as
`"None"` there, unlike the CSV renderer). -/
def pyStrCell : Option String → String
  | some v => v
  | none => "None"

/-- The formatting loop at the end of `_get_failed_logins`; a row that does
not have exactly three cells fails Python tuple unpacking. -/
def failedLoginLines : List (List (Option String)) → Except PyErr (List String)
  | [] => .ok []
  | row :: rest =>
    match row with
    | [d, p, t] =>
      match failedLoginLines rest with
      | .error e => .error e
      | .ok ls => .ok (("[" ++ pyStrCell d ++ "] " ++ pyStrCell p ++ " - " ++ pyStrCell t) :: ls)
    | _ => .error (.valueError ("cannot unpack row"))

/-- `_get_failed_logins`: validates the time period before touching the
database, then executes the batch, skips to the first result set with
columns, and formats the rows; driver failures inside the `try` block are
converted to an error text. -/
def getFailedLogins (t : Int) (db : Db) :
    Except PyErr (List TextContent) × List Ev :=
  if t ≤ 0 ∨ t > 43200 then
    (.ok [⟨"Please specify a valid time period in minutes (1 to 43200)."⟩], [])
  else
    match db.connectOk with
    | .error e =>
      (.ok [⟨"Error retrieving failed login information: " ++ pyErrStr e⟩], [.connect])
    | .ok _ =>
      match db.runBatch (failedLoginsSql t) with
      | .error e =>
        (.ok [⟨"Error retrieving failed login information: " ++ pyErrStr e⟩],
         [.connect, .exec (failedLoginsSql t)])
      | .ok sets =>
        let rows := fetchAfterSkip sets
        if rows = [] then
          (.ok [⟨"No failed login events found in the specified time period."⟩],
           [.connect, .exec (failedLoginsSql t)])
        else
          match failedLoginLines rows with
          | .error e => (.error e, [.connect, .exec (failedLoginsSql t)])
          | .ok ls => (.ok [⟨pyJoin ("\n") ls⟩], [.connect, .exec (failedLoginsSql t)])

/-! ### Simplified server (src/simplified_server.py) -/

/-- The configuration surface read from the environment by the simplified
server's `_build_connection_string` (the `trusted_conn` variable is read
but never used, as in the source). -/
structure Config where
  driver : String
  server : String
  database : String
  username : String
  password : String
  port : String
  trust_cert : String
  trusted_conn : String
  auth_method : String
deriving DecidableEq, Repr

/-- `_build_connection_string` of the simplified server: SQL authentication
is used when `auth_method == "sql"` and both credentials are non-empty,
otherwise it falls back to Windows authentication. -/
def buildConnectionString (c : Config) : Except PyErr String :=
  if c.server = "" then .error (.valueError ("MSSQL_SERVER must be set"))
  else
    .ok ("DRIVER=" ++ c.driver ++ ";" ++ "SERVER=" ++ c.server ++ "," ++ c.port ++ ";" ++
      (if c.database ≠ "" then "DATABASE=" ++ c.database ++ ";" else "") ++
      (if c.auth_method = "sql" ∧ c.username ≠ "" ∧ c.password ≠ "" then
        "UID=" ++ c.username ++ ";" ++ "PWD=" ++ c.password ++ ";" ++ "Trusted_Connection=no;"
      else "Trusted_Connection=yes;") ++
      "TrustServerCertificate=" ++ c.trust_cert ++ ";")

/-- The pattern `PWD=` searched by `_sanitize_connection_string`. -/
def pwdPat : List Char := ['P', 'W', 'D', '=']

/-- The replacement `PWD=***;` written by `_sanitize_connection_string`. -/
def pwdMaskPat : List Char := ['P', 'W', 'D', '=', '*', '*', '*', ';']

/-- `re.sub(r"PWD=[^;]*;", "PWD=***;", s)`: at each position, if `PWD=`
matches and a `;` follows, the run up to and including the first `;` is
replaced and scanning resumes after it; otherwise scanning advances one
character. -/
def pwdMask : List Char → List Char
  | [] => []
  | c :: rest =>
    if prefixChars pwdPat (c :: rest) then
      if ((rest.drop 3).dropWhile (fun x => x ≠ ';')) = [] then c :: pwdMask rest
      else pwdMaskPat ++ pwdMask ((rest.drop 3).dropWhile (fun x => x ≠ ';')).tail
    else c :: pwdMask rest
termination_by l => l.length
decreasing_by
  · simp
  · have h1 : (((rest.drop 3).dropWhile (fun x => x ≠ ';')).tail).length ≤
        ((rest.drop 3).dropWhile (fun x => x ≠ ';')).length := by
      cases ((rest.drop 3).dropWhile (fun x => x ≠ ';')) with
      | nil => simp
      | cons a t => simp
    have h2 : ((rest.drop 3).dropWhile (fun x => x ≠ ';')).length ≤ (rest.drop 3).length :=
      (List.dropWhile_sublist _).length_le
    have h3 : (rest.drop 3).length ≤ rest.length := by
      simp [List.length_drop]
    simp only [List.length_cons]
    omega
  · simp

/-- `_sanitize_connection_string`: mask the password segments when the
string carries one. -/
def sanitizeConnectionString (s : String) : String :=
  if strContainsSub ("PWD=") s then ⟨pwdMask s.data⟩ else s

/-- Python truthiness of `arguments.get(k)` for a string-valued argument:
missing and empty are falsy. -/
def pyTruthyStr : Option String → Bool
  | none => false
  | some s => !(s == "")

/-- The `SQL: {sql[:100]}{'...' if len(sql) > 100 else ''}` fragment of the
simplified server's status texts. -/
def sqlSnippet (s : String) : String :=
  pyTake 100 s ++ (if pyLen s > 100 then "..." else "")

/-- The `\u274c Error executing {operation} operation: ...` text of the
simplified server's exception handler. -/
def dbOpFailText (op : String) (e : PyErr) (sql : String) : String :=
  "\u274c Error executing " ++ op ++ " operation: " ++ pyErrStr e ++ "\nSQL: " ++ sqlSnippet sql

/-- `_execute_database_operation` of the simplified server: argument
presence checks, then one connection scope around the chosen operation;
no statement classification is performed in any branch, and any exception
inside the scope becomes an error text. -/
def executeDatabaseOperation (operation sql : Option String) (db : Db) :
    List TextContent × List Ev :=
  if pyTruthyStr sql = false then
    ([⟨"Error: SQL query is required"⟩], [])
  else if pyTruthyStr operation = false then
    ([⟨"Error: Operation is required (CREATE, READ, UPDATE, DELETE)"⟩], [])
  else
    let s := sql.getD ""
    let op := operation.getD ""
    match db.connectOk with
    | .error e => ([⟨dbOpFailText op e s⟩], [.connect])
    | .ok _ =>
      if op = "READ" then
        match db.run s with
        | .error e => ([⟨dbOpFailText op e s⟩], [.connect, .exec s])
        | .ok res =>
          if res.rows = [] then
            ([⟨"No results returned"⟩], [.connect, .exec s])
          else
            ([⟨pyStrip (readCsv res.cols res.rows)⟩], [.connect, .exec s])
      else if op = "CREATE" then
        match db.run s with
        | .error e => ([⟨dbOpFailText op e s⟩], [.connect, .exec s])
        | .ok _ =>
          ([⟨"\u2705 CREATE operation completed successfully.\nSQL: " ++ sqlSnippet s⟩],
           [.connect, .exec s, .commit])
      else if op = "UPDATE" then
        match db.run s with
        | .error e => ([⟨dbOpFailText op e s⟩], [.connect, .exec s])
        | .ok res =>
          ([⟨"\u2705 UPDATE operation completed successfully.\nRows affected: " ++ toString res.rowcount ++ "\nSQL: " ++ sqlSnippet s⟩],
           [.connect, .exec s, .commit])
      else if op = "DELETE" then
        match db.run s with
        | .error e => ([⟨dbOpFailText op e s⟩], [.connect, .exec s])
        | .ok res =>
          ([⟨"\u2705 DELETE operation completed successfully.\nRows deleted: " ++ toString res.rowcount ++ "\nSQL: " ++ sqlSnippet s⟩],
           [.connect, .exec s, .commit])
      else
        ([⟨"Error: Invalid operation \x27" ++ op ++ "\x27. Use CREATE, READ, UPDATE, or DELETE"⟩],
         [.connect])

/-- First-match association lookup, modelling Python dict access for the
simplified server's string-valued arguments. -/
def lookupStr (args : List (String × String)) (k : String) : Option String :=
  match args.find? (fun p => p.1 = k) with
  | some p => some p.2
  | none => none

/-- The body of the simplified server's `call_tool` before its
`except Exception` clause: unknown tools raise `ValueError`. -/
def simplifiedCallToolInner (name : String) (args : List (String × String)) (db : Db) :
    Except PyErr (List TextContent) × List Ev :=
  if name = "database" then
    let r := executeDatabaseOperation (lookupStr args ("operation")) (lookupStr args ("sql")) db
    (.ok r.1, r.2)
  else
    (.error (.valueError ("Unknown tool: " ++ name)), [])

/-- The simplified server's `call_tool`: every exception from the body is
converted to an `Error: ...` text. -/
def simplifiedCallTool (name : String) (args : List (String × String)) (db : Db) :
    List TextContent × List Ev :=
  match simplifiedCallToolInner name args db with
  | (.ok ts, evs) => (ts, evs)
  | (.error e, evs) => ([⟨"Error: " ++ pyErrStr e⟩], evs)

/-! ### Operation dispatcher of the main server (`call_tool`) -/

/-- JSON-ish argument values carried by a tool invocation. -/
inductive Val where
  | vstr (s : String)
  | vint (n : Int)
  | vbool (b : Bool)
  | vlist (xs : List String)
  | vnone
deriving DecidableEq, Repr

/-- The `arguments` mapping of one invocation. -/
def Args := List (String × Val)

/-- Python `arguments.get(k)`. -/
def lookupArg (args : Args) (k : String) : Option Val :=
  match args.find? (fun p => p.1 = k) with
  | some p => some p.2
  | none => none

/-- Python `arguments[k]`: raises `KeyError(k)` when absent. -/
def getItem (args : Args) (k : String) : Except PyErr Val :=
  match lookupArg args k with
  | some v => .ok v
  | none => .error (.keyError k)

/-- Python `arguments.get(k, d)`. -/
def getDefault (args : Args) (k : String) (d : Val) : Val :=
  match lookupArg args k with
  | some v => v
  | none => d

/-- The per-(tool, action) handlers invoked by `call_tool`, abstracted over
their behavior: each may raise any exception, which the single-request
boundary must catch. Field names follow the `_`-prefixed methods. -/
structure Handlers where
  executeReadQuery : Val → Except PyErr (List TextContent)
  executeWriteQuery : Val → Except PyErr (List TextContent)
  listTables : Except PyErr (List TextContent)
  describeTable : Val → Except PyErr (List TextContent)
  createTable : Val → Except PyErr (List TextContent)
  getTopWaits : Except PyErr (List TextContent)
  getConnectionStats : Except PyErr (List TextContent)
  getBlockingSessions : Except PyErr (List TextContent)
  getRecentDeadlockGraph : Except PyErr (List TextContent)
  getPreviousBlockingSessions : Val → Val → Except PyErr (List TextContent)
  getDatabasePerformanceStats : Val → Val → Except PyErr (List TextContent)
  getSlowQueries : Val → Val → Except PyErr (List TextContent)
  getFailedLogins : Val → Except PyErr (List TextContent)
  getBufferPoolStats : Except PyErr (List TextContent)
  listFunctions : Except PyErr (List TextContent)
  describeFunction : Val → Except PyErr (List TextContent)
  createFunction : Val → Except PyErr (List TextContent)
  executeFunction : Val → Val → Except PyErr (List TextContent)
  modifyFunction : Val → Except PyErr (List TextContent)
  deleteFunction : Val → Except PyErr (List TextContent)
  getUnusedIndexes : Except PyErr (List TextContent)
  getMissingIndexRecommendations : Except PyErr (List TextContent)
  getFragmentedIndexes : Val → Except PyErr (List TextContent)
  listProcedures : Except PyErr (List TextContent)
  describeProcedure : Val → Except PyErr (List TextContent)
  createProcedure : Val → Except PyErr (List TextContent)
  executeProcedure : Val → Option Val → Except PyErr (List TextContent)
  modifyProcedure : Val → Except PyErr (List TextContent)
  deleteProcedure : Val → Except PyErr (List TextContent)
  getProcedureParameters : Val → Except PyErr (List TextContent)
  listViews : Except PyErr (List TextContent)
  describeView : Val → Except PyErr (List TextContent)
  createView : Val → Except PyErr (List TextContent)
  modifyView : Val → Except PyErr (List TextContent)
  deleteView : Val → Except PyErr (List TextContent)
  listIndexes : Option Val → Except PyErr (List TextContent)
  describeIndex : Val → Val → Except PyErr (List TextContent)
  createIndex : Val → Except PyErr (List TextContent)
  deleteIndex : Val → Val → Except PyErr (List TextContent)
  getIndexUsageStats : Except PyErr (List TextContent)
  listSchemas : Except PyErr (List TextContent)
  listAllObjects : Option Val → Except PyErr (List TextContent)
  getTableSize : Val → Except PyErr (List TextContent)

/-- The action string of a request, as compared by `==` in Python. -/
def actionIs (args : Args) (a : String) : Prop :=
  lookupArg args ("action") = some (.vstr a)

instance (args : Args) (a : String) : Decidable (actionIs args a) := by
  unfold actionIs
  infer_instance

/-- The body of the main server's `call_tool` before its `except Exception`
clause: the full (tool, action) if/elif dispatch, including the
`KeyError`s of mandatory-argument access and the `ValueError` raised for
an unknown tool. -/
def dispatchTool (H : Handlers) (name : String) (args : Args) :
    Except PyErr (List TextContent) :=
  if name = "query" then
    if actionIs args ("read") then do
      let sql ← getItem args ("sql")
      H.executeReadQuery sql
    else if actionIs args ("write") then do
      let sql ← getItem args ("sql")
      H.executeWriteQuery sql
    else .ok [⟨"Invalid action for query tool"⟩]
  else if name = "table" then
    if actionIs args ("list") then H.listTables
    else if actionIs args ("describe") then do
      let tn ← getItem args ("table_name")
      H.describeTable tn
    else if actionIs args ("create") then do
      let sql ← getItem args ("sql")
      H.createTable sql
    else .ok [⟨"Invalid action for table tool"⟩]
  else if name = "performance" then
    if actionIs args ("top_waits") then H.getTopWaits
    else if actionIs args ("connection_stats") then H.getConnectionStats
    else if actionIs args ("blocking_sessions") then H.getBlockingSessions
    else if actionIs args ("deadlock_graph") then H.getRecentDeadlockGraph
    else if actionIs args ("previous_blocking") then
      H.getPreviousBlockingSessions (getDefault args ("hours_back") (.vint 24))
        (getDefault args ("min_duration_seconds") (.vint 5))
    else if actionIs args ("database_stats") then
      H.getDatabasePerformanceStats (getDefault args ("include_query_stats") (.vbool true))
        (getDefault args ("top_queries_count") (.vint 10))
    else if actionIs args ("slow_queries") then
      H.getSlowQueries (getDefault args ("min_elapsed_ms") (.vint 1000))
        (getDefault args ("top_n") (.vint 20))
    else if actionIs args ("failed_logins") then
      H.getFailedLogins (getDefault args ("time_period_minutes") (.vint 120))
    else if actionIs args ("buffer_pool_stats") then H.getBufferPoolStats
    else .ok [⟨"Invalid action for performance tool"⟩]
  else if name = "function" then
    if actionIs args ("list") then H.listFunctions
    else if actionIs args ("describe") then do
      let fn ← getItem args ("function_name")
      H.describeFunction fn
    else if actionIs args ("create") then do
      let fs ← getItem args ("function_script")
      H.createFunction fs
    else if actionIs args ("execute") then do
      let fn ← getItem args ("function_name")
      H.executeFunction fn (getDefault args ("parameters") (.vlist []))
    else if actionIs args ("modify") then do
      let fs ← getItem args ("function_script")
      H.modifyFunction fs
    else if actionIs args ("delete") then do
      let fn ← getItem args ("function_name")
      H.deleteFunction fn
    else .ok [⟨"Invalid action for function tool"⟩]
  else if name = "index_analysis" then
    if actionIs args ("unused") then H.getUnusedIndexes
    else if actionIs args ("missing_recommendations") then H.getMissingIndexRecommendations
    else if actionIs args ("fragmented") then
      H.getFragmentedIndexes (getDefault args ("fragmentation_threshold") (.vint 10))
    else .ok [⟨"Invalid action for index_analysis tool"⟩]
  else if name = "procedure" then
    if actionIs args ("list") then H.listProcedures
    else if actionIs args ("describe") then do
      let pn ← getItem args ("procedure_name")
      H.describeProcedure pn
    else if actionIs args ("create") then do
      let ps ← getItem args ("procedure_script")
      H.createProcedure ps
    else if actionIs args ("execute") then do
      let pn ← getItem args ("procedure_name")
      H.executeProcedure pn (lookupArg args ("parameters"))
    else if actionIs args ("modify") then do
      let ps ← getItem args ("procedure_script")
      H.modifyProcedure ps
    else if actionIs args ("delete") then do
      let pn ← getItem args ("procedure_name")
      H.deleteProcedure pn
    else if actionIs args ("get_parameters") then do
      let pn ← getItem args ("procedure_name")
      H.getProcedureParameters pn
    else .ok [⟨"Invalid action for procedure tool"⟩]
  else if name = "view" then
    if actionIs args ("list") then H.listViews
    else if actionIs args ("describe") then do
      let vn ← getItem args ("view_name")
      H.describeView vn
    else if actionIs args ("create") then do
      let vs ← getItem args ("view_script")
      H.createView vs
    else if actionIs args ("modify") then do
      let vs ← getItem args ("view_script")
      H.modifyView vs
    else if actionIs args ("delete") then do
      let vn ← getItem args ("view_name")
      H.deleteView vn
    else .ok [⟨"Invalid action for view tool"⟩]
  else if name = "index" then
    if actionIs args ("list") then H.listIndexes (lookupArg args ("table_name"))
    else if actionIs args ("describe") then do
      let ixn ← getItem args ("index_name")
      let tn ← getItem args ("table_name")
      H.describeIndex ixn tn
    else if actionIs args ("create") then do
      let ixs ← getItem args ("index_script")
      H.createIndex ixs
    else if actionIs args ("delete") then do
      let ixn ← getItem args ("index_name")
      let tn ← getItem args ("table_name")
      H.deleteIndex ixn tn
    else if actionIs args ("get_index_usage_stats") then H.getIndexUsageStats
    else .ok [⟨"Invalid action for index tool"⟩]
  else if name = "schema" then
    if actionIs args ("list_schemas") then H.listSchemas
    else if actionIs args ("list_objects") then H.listAllObjects (lookupArg args ("schema_name"))
    else if actionIs args ("table_size") then do
      let tn ← getItem args ("table_name")
      H.getTableSize tn
    else .ok [⟨"Invalid action for schema tool"⟩]
  else .error (.valueError ("Unknown tool: " ++ name))

/-- The main server's `call_tool`: the single-request boundary that converts
every exception raised by dispatch, argument access or a handler into an
`Error: ...` text payload. -/
def callTool (H : Handlers) (name : String) (args : Args) : List TextContent :=
  match dispatchTool H name args with
  | .ok ts => ts
  | .error e => [⟨"Error: " ++ pyErrStr e⟩]

/-- The nine tool names `call_tool` recognizes. -/
def knownTools : List String :=
  ["query", "table", "performance", "function", "index_analysis",
   "procedure", "view", "index", "schema"]

/-! ### Concrete instances used in witnesses and counterexamples -/

/-- A driver whose statements succeed with an empty result set. -/
def dbNoRows : Db :=
  ⟨.ok (), fun _ => .ok ⟨[], [], 0⟩, fun _ => .ok []⟩

/-- A driver returning one result set whose single cell embeds a newline. -/
def dbRowsNl : Db :=
  ⟨.ok (), fun _ => .ok ⟨["c"], [[some ("a\nb")]], -1⟩, fun _ => .ok []⟩

/-- A driver returning two columns and one row with a NULL second cell. -/
def dbOneRow : Db :=
  ⟨.ok (), fun _ => .ok ⟨["id", "name"], [[some ("1"), none]], 1⟩, fun _ => .ok []⟩

/-- A driver reporting three affected rows. -/
def dbThreeRows : Db :=
  ⟨.ok (), fun _ => .ok ⟨[], [], 3⟩, fun _ => .ok []⟩

/-- A driver whose statements all fail. -/
def dbFail : Db :=
  ⟨.ok (), fun _ => .error (.dbError ("boom")), fun _ => .error (.dbError ("boom"))⟩

/-- A batch result: a metadata-less result set followed by one with
columns. -/
def sampleSets : List ResultSet :=
  [⟨none, [[some ("x")]]⟩,
   ⟨some ["LogDate", "ProcessInfo", "Text"], [[some ("d1"), some ("p1"), some ("t1")]]⟩]

/-- A driver whose batch yields a metadata-less result set followed by one
with columns. -/
def dbBatchSets : Db :=
  ⟨.ok (), fun _ => .ok ⟨[], [], 0⟩, fun _ => .ok sampleSets⟩

/-- Handlers that all succeed with an empty payload. -/
def trivialHandlers : Handlers where
  executeReadQuery _ := .ok []
  executeWriteQuery _ := .ok []
  listTables := .ok []
  describeTable _ := .ok []
  createTable _ := .ok []
  getTopWaits := .ok []
  getConnectionStats := .ok []
  getBlockingSessions := .ok []
  getRecentDeadlockGraph := .ok []
  getPreviousBlockingSessions _ _ := .ok []
  getDatabasePerformanceStats _ _ := .ok []
  getSlowQueries _ _ := .ok []
  getFailedLogins _ := .ok []
  getBufferPoolStats := .ok []
  listFunctions := .ok []
  describeFunction _ := .ok []
  createFunction _ := .ok []
  executeFunction _ _ := .ok []
  modifyFunction _ := .ok []
  deleteFunction _ := .ok []
  getUnusedIndexes := .ok []
  getMissingIndexRecommendations := .ok []
  getFragmentedIndexes _ := .ok []
  listProcedures := .ok []
  describeProcedure _ := .ok []
  createProcedure _ := .ok []
  executeProcedure _ _ := .ok []
  modifyProcedure _ := .ok []
  deleteProcedure _ := .ok []
  getProcedureParameters _ := .ok []
  listViews := .ok []
  describeView _ := .ok []
  createView _ := .ok []
  modifyView _ := .ok []
  deleteView _ := .ok []
  listIndexes _ := .ok []
  describeIndex _ _ := .ok []
  createIndex _ := .ok []
  deleteIndex _ _ := .ok []
  getIndexUsageStats := .ok []
  listSchemas := .ok []
  listAllObjects _ := .ok []
  getTableSize _ := .ok []

/-- The connection-string text before the `PWD=` segment when SQL
authentication is chosen. -/
def connPre (c : Config) : String :=
  "DRIVER=" ++ c.driver ++ ";" ++ "SERVER=" ++ c.server ++ "," ++ c.port ++ ";" ++
  (if c.database ≠ "" then "DATABASE=" ++ c.database ++ ";" else "") ++
  "UID=" ++ c.username ++ ";"

/-- The connection-string text after the password segment. -/
def connSuf (c : Config) : String :=
  "Trusted_Connection=no;" ++ "TrustServerCertificate=" ++ c.trust_cert ++ ";"

/-- An ordinary SQL-authentication configuration. -/
def cfgWitness : Config :=
  ⟨"ODBCDriver18", "localhost", "master", "sa", "hunter2", "1433", "yes", "no", "sql"⟩

/-- A configuration whose username equals its password. -/
def cfgLeaky : Config :=
  ⟨"ODBCDriver18", "localhost", "master", "secret", "secret", "1433", "yes", "no", "sql"⟩

/-- The connection string built from `cfgLeaky`. -/
def leakyStr : String :=
  "DRIVER=ODBCDriver18;SERVER=localhost,1433;DATABASE=master;UID=secret;PWD=secret;Trusted_Connection=no;TrustServerCertificate=yes;"

/-- `leakyStr` with the password segment masked. -/
def leakyMasked : String :=
  "DRIVER=ODBCDriver18;SERVER=localhost,1433;DATABASE=master;UID=secret;PWD=***;Trusted_Connection=no;TrustServerCertificate=yes;"

/-- The connection string built from `cfgWitness`. -/
def witnessStr : String :=
  "DRIVER=ODBCDriver18;SERVER=localhost,1433;DATABASE=master;UID=sa;PWD=hunter2;Trusted_Connection=no;TrustServerCertificate=yes;"

/-- `witnessStr` with the password segment masked. -/
def witnessMasked : String :=
  "DRIVER=ODBCDriver18;SERVER=localhost,1433;DATABASE=master;UID=sa;PWD=***;Trusted_Connection=no;TrustServerCertificate=yes;"

/-- Concatenation of lines, each terminated by a newline — the shape the
CSV accumulation loop produces. -/
def linesFlat (ls : List String) : List Char :=
  (ls.map (fun s => s.data ++ ['\n'])).flatten

/-- Lines joined by single newlines, with no terminator. -/
def nlJoinChars : List (List Char) → List Char
  | [] => []
  | [l] => l
  | l :: ls => l ++ '\n' :: nlJoinChars ls

/-! ### Helper lemmas -/

theorem prefixChars_iff (p l : List Char) : prefixChars p l = true ↔ ∃ t, l = p ++ t := by
  induction p generalizing l with
  | nil =>
    simp [prefixChars]
  | cons a as ih =>
    cases l with
    | nil =>
      simp [prefixChars]
    | cons b bs =>
      simp only [prefixChars, Bool.and_eq_true, beq_iff_eq, ih, List.cons_append,
        List.cons.injEq]
      constructor
      · rintro ⟨rfl, t, rfl⟩
        exact ⟨t, rfl, rfl⟩
      · rintro ⟨t, rfl, rfl⟩
        exact ⟨rfl, t, rfl⟩

theorem strStartsWith_false_of (s a b : String) (h : strStartsWith s a = true)
    (hab : ∀ t : List Char, prefixChars b.data (a.data ++ t) = false) :
    strStartsWith s b = false := by
  unfold strStartsWith at h ⊢
  obtain ⟨t, ht⟩ := (prefixChars_iff _ _).mp h
  rw [ht]
  exact hab t

theorem writeAllowed_of_mem (q c : String) (hc : c ∈ allowedCommands)
    (h : strStartsWith (pyUpper (pyStrip q)) c = true) : writeAllowed q = true :=
  List.any_eq_true.mpr ⟨c, hc, h⟩

theorem subChars_of_split (p a b : List Char) :
    subChars p (a ++ (p ++ b)) = true := by
  apply List.any_eq_true.mpr
  refine ⟨a.length, ?_, ?_⟩
  · simp only [List.mem_range, List.length_append]
    omega
  · rw [List.drop_append_of_le_length (le_refl a.length), List.drop_length,
      List.nil_append]
    exact (prefixChars_iff _ _).mpr ⟨b, rfl⟩

/-! ### Claim C8: the result-set skip loop -/

/-- C8: for every finite list of result sets, the
`while cursor.description is None` skip loop terminates (it is a total
function) and either positions the cursor on the first result set with
column metadata and fetches exactly that set's rows, or, when no set has
column metadata, yields the empty row list without fetching. Result sets
are well-formed: a present `description` is a non-empty column tuple. -/
theorem c8_skip_loop_fetches_first_columned (sets : List ResultSet)
    (hwf : ∀ rs ∈ sets, rs.description ≠ some []) :
    fetchAfterSkip sets =
      ((sets.find? (fun rs => rs.description.isSome)).map ResultSet.rows).getD [] := by
  induction sets with
  | nil => rfl
  | cons rs rest ih =>
    cases hd : rs.description with
    | some d =>
      unfold fetchAfterSkip skipToColumns
      simp only [List.find?_cons, hd, Option.isSome_some, if_true]
      cases d with
      | nil =>
        exact absurd hd (hwf rs (List.mem_cons_self rs rest))
      | cons x xs =>
        rfl
    | none =>
      have hskip : skipToColumns (rs :: rest) = skipToColumns rest := by
        simp [skipToColumns, hd]
      unfold fetchAfterSkip
      rw [hskip]
      simp only [List.find?_cons, hd, Option.isSome_none, Bool.false_eq_true, if_false]
      exact ih (fun r hr => hwf r (List.mem_cons_of_mem _ hr))

/-- C8 witness: on a batch whose first result set lacks metadata, the rows
of the second (columned) set are fetched. -/
theorem c8_witness :
    ((sampleSets.find? (fun rs => rs.description.isSome)).map ResultSet.rows).getD []
        = [[some ("d1"), some ("p1"), some ("t1")]] ∧
    fetchAfterSkip sampleSets = [[some ("d1"), some ("p1"), some ("t1")]] := by
  constructor
  · decide
  · rw [c8_skip_loop_fetches_first_columned sampleSets (by decide)]
    decide

/-! ### Claim C10: the failed-logins time-period gate -/

/-- C10: an out-of-range `time_period_minutes` (≤ 0 or > 43200) makes
`_get_failed_logins` return the fixed validation message with no database
event at all (no connection, no SQL); an in-range value proceeds: the
handler connects first, and whenever the connection succeeds the error-log
batch is executed. -/
theorem c10_failed_logins_gate (t : Int) (db : Db) :
    (t ≤ 0 ∨ t > 43200 →
      getFailedLogins t db =
        (.ok [⟨"Please specify a valid time period in minutes (1 to 43200)."⟩], [])) ∧
    (1 ≤ t → t ≤ 43200 →
      (getFailedLogins t db).2.head? = some Ev.connect ∧
      (db.connectOk = .ok () → Ev.exec (failedLoginsSql t) ∈ (getFailedLogins t db).2)) := by
  constructor
  · intro h
    unfold getFailedLogins
    rw [if_pos h]
  · intro h1 h2
    have hng : ¬(t ≤ 0 ∨ t > 43200) := by omega
    constructor
    · unfold getFailedLogins
      rw [if_neg hng]
      cases hco : db.connectOk with
      | error e => rfl
      | ok u =>
        cases hrb : db.runBatch (failedLoginsSql t) with
        | error e => rfl
        | ok sets =>
          dsimp only
          split
          · rfl
          · split <;> rfl
    · intro hco
      unfold getFailedLogins
      rw [if_neg hng, hco]
      cases hrb : db.runBatch (failedLoginsSql t) with
      | error e => simp
      | ok sets =>
        dsimp only
        split
        · simp
        · split <;> simp

/-- C10 witness: at 0 minutes the fixed message is returned with an empty
event trace; at 120 minutes the handler connects and runs the batch. -/
theorem c10_witness :
    getFailedLogins 0 dbBatchSets =
      (.ok [⟨"Please specify a valid time period in minutes (1 to 43200)."⟩], []) ∧
    (getFailedLogins 120 dbBatchSets).2.head? = some Ev.connect ∧
    Ev.exec (failedLoginsSql 120) ∈ (getFailedLogins 120 dbBatchSets).2 := by
  refine ⟨(c10_failed_logins_gate 0 dbBatchSets).1 (by decide), ?_, ?_⟩
  · exact ((c10_failed_logins_gate 120 dbBatchSets).2 (by decide) (by decide)).1
  · exact ((c10_failed_logins_gate 120 dbBatchSets).2 (by decide) (by decide)).2 rfl

/-! ### Claim C6: empty result sets yield the "no results" status -/

/-- C6: when a permitted Read statement executes and fetches zero rows, the
main server returns the fixed "No results found" status (a non-empty text
and a non-error outcome), and the simplified server's READ operation
likewise returns its fixed "No results returned" status. -/
theorem c6_empty_read_is_status (q : String) (db : Db) (res : QRes)
    (hsel : strStartsWith (pyUpper (pyStrip q)) ("SELECT") = true)
    (hconn : db.connectOk = .ok ())
    (hrun : db.run q = .ok res)
    (hempty : res.rows = []) :
    executeReadQuery q db = (.ok [⟨"No results found"⟩], [.connect, .exec q]) ∧
    ("No results found" : String) ≠ "" ∧
    (∀ s db2 res2, db2.connectOk = .ok () → db2.run s = .ok res2 → res2.rows = [] →
      s ≠ "" →
      executeDatabaseOperation (some ("READ")) (some s) db2 =
        ([⟨"No results returned"⟩], [.connect, .exec s]) ∧
      ("No results returned" : String) ≠ "") := by
  refine ⟨?_, by decide, ?_⟩
  · unfold executeReadQuery
    rw [hsel, hconn, hrun]
    simp [hempty]
  · intro s db2 res2 hc2 hr2 he2 hne
    refine ⟨?_, by decide⟩
    unfold executeDatabaseOperation
    have hts : pyTruthyStr (some s) = true := by
      simp [pyTruthyStr, hne]
    rw [hts, hc2]
    simp [pyTruthyStr, hr2, he2]

/-- C6 witness: a concrete SELECT against an empty table produces the two
status texts. -/
theorem c6_witness :
    executeReadQuery ("SELECT * FROM T") dbNoRows =
      (.ok [⟨"No results found"⟩], [.connect, .exec ("SELECT * FROM T")]) ∧
    executeDatabaseOperation (some ("READ")) (some ("SELECT * FROM T")) dbNoRows =
      ([⟨"No results returned"⟩], [.connect, .exec ("SELECT * FROM T")]) := by
  have h := c6_empty_read_is_status ("SELECT * FROM T") dbNoRows ⟨[], [], 0⟩
    (by decide) rfl rfl rfl
  exact ⟨h.1, (h.2.2 ("SELECT * FROM T") dbNoRows ⟨[], [], 0⟩ rfl rfl rfl (by decide)).1⟩

/-! ### Claim C4: transaction commit/rollback discipline -/

/-- C4: for the write-query handler and for `_create_table`, a successful
execution commits before the status is returned (the event trace ends in
`commit`), while a failed execution performs no commit — the scope closes
without one, leaving the transaction rolled back — and the driver error is
surfaced to the caller unchanged. -/
theorem c4_commit_on_success_error_surfaced (q : String) (db : Db)
    (hconn : db.connectOk = .ok ()) :
    (writeAllowed q = true →
      (∀ res, db.run q = .ok res →
        (executeWriteQuery q db).2 = [.connect, .exec q, .commit] ∧
        ∃ ts, (executeWriteQuery q db).1 = .ok ts) ∧
      (∀ e, db.run q = .error e →
        (executeWriteQuery q db).1 = .error e ∧
        Ev.commit ∉ (executeWriteQuery q db).2)) ∧
    (strStartsWith (pyUpper (pyStrip q)) ("CREATE TABLE") = true →
      (∀ res, db.run q = .ok res →
        createTable q db =
          (.ok [⟨"Table created successfully"⟩], [.connect, .exec q, .commit])) ∧
      (∀ e, db.run q = .error e →
        (createTable q db).1 = .error e ∧
        Ev.commit ∉ (createTable q db).2)) := by
  constructor
  · intro hw
    constructor
    · intro res hrun
      unfold executeWriteQuery
      simp only [hw, Bool.true_eq_false, if_false, hconn, hrun]
      split_ifs <;> exact ⟨by trivial, _, rfl⟩
    · intro e hrun
      unfold executeWriteQuery
      simp only [hw, Bool.true_eq_false, if_false, hconn, hrun]
      exact ⟨by trivial, by simp⟩
  · intro hct
    constructor
    · intro res hrun
      unfold createTable
      simp only [hct, Bool.true_eq_false, if_false, hconn, hrun]
    · intro e hrun
      unfold createTable
      simp only [hct, Bool.true_eq_false, if_false, hconn, hrun]
      exact ⟨by trivial, by simp⟩

/-- C4 witness: a DELETE committing on success, the same DELETE leaving no
commit and surfacing the driver error on failure, and a CREATE TABLE
committing on success. -/
theorem c4_witness :
    (executeWriteQuery ("DELETE FROM T") dbThreeRows).2 =
      [.connect, .exec ("DELETE FROM T"), .commit] ∧
    (executeWriteQuery ("DELETE FROM T") dbFail).1 = .error (.dbError ("boom")) ∧
    Ev.commit ∉ (executeWriteQuery ("DELETE FROM T") dbFail).2 ∧
    createTable ("CREATE TABLE T (id INT)") dbThreeRows =
      (.ok [⟨"Table created successfully"⟩],
       [.connect, .exec ("CREATE TABLE T (id INT)"), .commit]) := by
  refine ⟨?_, ?_, ?_, ?_⟩
  · exact (((c4_commit_on_success_error_surfaced ("DELETE FROM T") dbThreeRows rfl).1
      (by decide)).1 ⟨[], [], 3⟩ rfl).1
  · exact (((c4_commit_on_success_error_surfaced ("DELETE FROM T") dbFail rfl).1
      (by decide)).2 (.dbError ("boom")) rfl).1
  · exact (((c4_commit_on_success_error_surfaced ("DELETE FROM T") dbFail rfl).1
      (by decide)).2 (.dbError ("boom")) rfl).2
  · exact ((c4_commit_on_success_error_surfaced ("CREATE TABLE T (id INT)") dbThreeRows
      rfl).2 (by decide)).1 ⟨[], [], 3⟩ rfl

/-! ### Claim C7: status text per statement class -/

/-- C7: after a successful execution through the write handler, a DML
statement (INSERT/UPDATE/DELETE prefix) yields a status that carries the
driver-reported affected-row count, while each DDL group and EXEC yields
its fixed success sentence, a literal independent of the row count. -/
theorem c7_write_status_by_class (q : String) (db : Db) (res : QRes)
    (hconn : db.connectOk = .ok ()) (hrun : db.run q = .ok res) :
    ((strStartsWith (pyUpper (pyStrip q)) ("INSERT") = true ∨
      strStartsWith (pyUpper (pyStrip q)) ("UPDATE") = true ∨
      strStartsWith (pyUpper (pyStrip q)) ("DELETE") = true) →
      (executeWriteQuery q db).1 =
        .ok [⟨"Query executed successfully. " ++ toString res.rowcount ++ " rows affected."⟩] ∧
      strContainsSub (toString res.rowcount)
        ("Query executed successfully. " ++ toString res.rowcount ++ " rows affected.") = true) ∧
    ((strStartsWith (pyUpper (pyStrip q)) ("CREATE PROCEDURE") = true ∨
      strStartsWith (pyUpper (pyStrip q)) ("ALTER PROCEDURE") = true ∨
      strStartsWith (pyUpper (pyStrip q)) ("DROP PROCEDURE") = true) →
      (executeWriteQuery q db).1 =
        .ok [⟨"Stored procedure operation executed successfully."⟩]) ∧
    ((strStartsWith (pyUpper (pyStrip q)) ("CREATE VIEW") = true ∨
      strStartsWith (pyUpper (pyStrip q)) ("ALTER VIEW") = true ∨
      strStartsWith (pyUpper (pyStrip q)) ("DROP VIEW") = true) →
      (executeWriteQuery q db).1 = .ok [⟨"View operation executed successfully."⟩]) ∧
    ((strStartsWith (pyUpper (pyStrip q)) ("CREATE INDEX") = true ∨
      strStartsWith (pyUpper (pyStrip q)) ("DROP INDEX") = true) →
      (executeWriteQuery q db).1 = .ok [⟨"Index operation executed successfully."⟩]) ∧
    (strStartsWith (pyUpper (pyStrip q)) ("EXEC") = true →
      (executeWriteQuery q db).1 = .ok [⟨"Stored procedure executed successfully."⟩]) := by
  refine ⟨?_, ?_, ?_, ?_, ?_⟩
  · intro hdml
    have hcontains : strContainsSub (toString res.rowcount)
        ("Query executed successfully. " ++ toString res.rowcount ++ " rows affected.") = true := by
      unfold strContainsSub
      rw [String.data_append, String.data_append, List.append_assoc]
      exact subChars_of_split _ _ _
    refine ⟨?_, hcontains⟩
    rcases hdml with h | h | h
    · have hw := writeAllowed_of_mem q _ (by decide) h
      have p1 := strStartsWith_false_of _ _ ("CREATE PROCEDURE") h (fun _ => rfl)
      have p2 := strStartsWith_false_of _ _ ("ALTER PROCEDURE") h (fun _ => rfl)
      have p3 := strStartsWith_false_of _ _ ("DROP PROCEDURE") h (fun _ => rfl)
      have p4 := strStartsWith_false_of _ _ ("CREATE VIEW") h (fun _ => rfl)
      have p5 := strStartsWith_false_of _ _ ("ALTER VIEW") h (fun _ => rfl)
      have p6 := strStartsWith_false_of _ _ ("DROP VIEW") h (fun _ => rfl)
      have p7 := strStartsWith_false_of _ _ ("CREATE INDEX") h (fun _ => rfl)
      have p8 := strStartsWith_false_of _ _ ("DROP INDEX") h (fun _ => rfl)
      have p9 := strStartsWith_false_of _ _ ("EXEC") h (fun _ => rfl)
      have p10 := strStartsWith_false_of _ _ ("EXECUTE") h (fun _ => rfl)
      unfold executeWriteQuery
      simp only [hw, Bool.true_eq_false, if_false, hconn, hrun,
        p1, p2, p3, p4, p5, p6, p7, p8, p9, p10, Bool.or_self, Bool.false_or,
        Bool.or_false, Bool.false_eq_true, if_false]
    · have hw := writeAllowed_of_mem q _ (by decide) h
      have p1 := strStartsWith_false_of _ _ ("CREATE PROCEDURE") h (fun _ => rfl)
      have p2 := strStartsWith_false_of _ _ ("ALTER PROCEDURE") h (fun _ => rfl)
      have p3 := strStartsWith_false_of _ _ ("DROP PROCEDURE") h (fun _ => rfl)
      have p4 := strStartsWith_false_of _ _ ("CREATE VIEW") h (fun _ => rfl)
      have p5 := strStartsWith_false_of _ _ ("ALTER VIEW") h (fun _ => rfl)
      have p6 := strStartsWith_false_of _ _ ("DROP VIEW") h (fun _ => rfl)
      have p7 := strStartsWith_false_of _ _ ("CREATE INDEX") h (fun _ => rfl)
      have p8 := strStartsWith_false_of _ _ ("DROP INDEX") h (fun _ => rfl)
      have p9 := strStartsWith_false_of _ _ ("EXEC") h (fun _ => rfl)
      have p10 := strStartsWith_false_of _ _ ("EXECUTE") h (fun _ => rfl)
      unfold executeWriteQuery
      simp only [hw, Bool.true_eq_false, if_false, hconn, hrun,
        p1, p2, p3, p4, p5, p6, p7, p8, p9, p10, Bool.or_self, Bool.false_or,
        Bool.or_false, Bool.false_eq_true, if_false]
    · have hw := writeAllowed_of_mem q _ (by decide) h
      have p1 := strStartsWith_false_of _ _ ("CREATE PROCEDURE") h (fun _ => rfl)
      have p2 := strStartsWith_false_of _ _ ("ALTER PROCEDURE") h (fun _ => rfl)
      have p3 := strStartsWith_false_of _ _ ("DROP PROCEDURE") h (fun _ => rfl)
      have p4 := strStartsWith_false_of _ _ ("CREATE VIEW") h (fun _ => rfl)
      have p5 := strStartsWith_false_of _ _ ("ALTER VIEW") h (fun _ => rfl)
      have p6 := strStartsWith_false_of _ _ ("DROP VIEW") h (fun _ => rfl)
      have p7 := strStartsWith_false_of _ _ ("CREATE INDEX") h (fun _ => rfl)
      have p8 := strStartsWith_false_of _ _ ("DROP INDEX") h (fun _ => rfl)
      have p9 := strStartsWith_false_of _ _ ("EXEC") h (fun _ => rfl)
      have p10 := strStartsWith_false_of _ _ ("EXECUTE") h (fun _ => rfl)
      unfold executeWriteQuery
      simp only [hw, Bool.true_eq_false, if_false, hconn, hrun,
        p1, p2, p3, p4, p5, p6, p7, p8, p9, p10, Bool.or_self, Bool.false_or,
        Bool.or_false, Bool.false_eq_true, if_false]
  · intro hproc
    rcases hproc with h | h | h <;>
    · have hw := writeAllowed_of_mem q _ (by decide) h
      unfold executeWriteQuery
      simp only [hw, Bool.true_eq_false, if_false, hconn, hrun, h,
        Bool.true_or, Bool.or_true, if_true]
  · intro hview
    rcases hview with h | h | h <;>
    · have hw := writeAllowed_of_mem q _ (by decide) h
      have p1 := strStartsWith_false_of _ _ ("CREATE PROCEDURE") h (fun _ => rfl)
      have p2 := strStartsWith_false_of _ _ ("ALTER PROCEDURE") h (fun _ => rfl)
      have p3 := strStartsWith_false_of _ _ ("DROP PROCEDURE") h (fun _ => rfl)
      unfold executeWriteQuery
      simp only [hw, Bool.true_eq_false, if_false, hconn, hrun, h,
        p1, p2, p3, Bool.or_self, Bool.false_or, Bool.or_false, Bool.true_or,
        Bool.or_true, Bool.false_eq_true, if_false, if_true]
  · intro hidx
    rcases hidx with h | h <;>
    · have hw := writeAllowed_of_mem q _ (by decide) h
      have p1 := strStartsWith_false_of _ _ ("CREATE PROCEDURE") h (fun _ => rfl)
      have p2 := strStartsWith_false_of _ _ ("ALTER PROCEDURE") h (fun _ => rfl)
      have p3 := strStartsWith_false_of _ _ ("DROP PROCEDURE") h (fun _ => rfl)
      have p4 := strStartsWith_false_of _ _ ("CREATE VIEW") h (fun _ => rfl)
      have p5 := strStartsWith_false_of _ _ ("ALTER VIEW") h (fun _ => rfl)
      have p6 := strStartsWith_false_of _ _ ("DROP VIEW") h (fun _ => rfl)
      unfold executeWriteQuery
      simp only [hw, Bool.true_eq_false, if_false, hconn, hrun, h,
        p1, p2, p3, p4, p5, p6, Bool.or_self, Bool.false_or, Bool.or_false,
        Bool.true_or, Bool.or_true, Bool.false_eq_true, if_false, if_true]
  · intro h
    have hw := writeAllowed_of_mem q _ (by decide) h
    have p1 := strStartsWith_false_of _ _ ("CREATE PROCEDURE") h (fun _ => rfl)
    have p2 := strStartsWith_false_of _ _ ("ALTER PROCEDURE") h (fun _ => rfl)
    have p3 := strStartsWith_false_of _ _ ("DROP PROCEDURE") h (fun _ => rfl)
    have p4 := strStartsWith_false_of _ _ ("CREATE VIEW") h (fun _ => rfl)
    have p5 := strStartsWith_false_of _ _ ("ALTER VIEW") h (fun _ => rfl)
    have p6 := strStartsWith_false_of _ _ ("DROP VIEW") h (fun _ => rfl)
    have p7 := strStartsWith_false_of _ _ ("CREATE INDEX") h (fun _ => rfl)
    have p8 := strStartsWith_false_of _ _ ("DROP INDEX") h (fun _ => rfl)
    unfold executeWriteQuery
    simp only [hw, Bool.true_eq_false, if_false, hconn, hrun, h,
      p1, p2, p3, p4, p5, p6, p7, p8, Bool.or_self, Bool.false_or, Bool.or_false,
      Bool.true_or, Bool.or_true, Bool.false_eq_true, if_false, if_true]

/-- C7 witness: a DELETE reports the affected-row count, a CREATE VIEW and
an EXEC report their fixed sentences. -/
theorem c7_witness :
    (executeWriteQuery ("DELETE FROM T WHERE id=1") dbThreeRows).1 =
      .ok [⟨"Query executed successfully. 3 rows affected."⟩] ∧
    (executeWriteQuery ("CREATE VIEW V AS SELECT 1 AS one") dbThreeRows).1 =
      .ok [⟨"View operation executed successfully."⟩] ∧
    (executeWriteQuery ("EXEC dbo.MyProc") dbThreeRows).1 =
      .ok [⟨"Stored procedure executed successfully."⟩] := by
  refine ⟨?_, ?_, ?_⟩
  · exact ((c7_write_status_by_class ("DELETE FROM T WHERE id=1") dbThreeRows
      ⟨[], [], 3⟩ rfl rfl).1 (by decide)).1
  · exact (c7_write_status_by_class ("CREATE VIEW V AS SELECT 1 AS one") dbThreeRows
      ⟨[], [], 3⟩ rfl rfl).2.2.1 (by decide)
  · exact (c7_write_status_by_class ("EXEC dbo.MyProc") dbThreeRows
      ⟨[], [], 3⟩ rfl rfl).2.2.2.2 (by decide)

/-! ### Claim C1: the write-action statement gate -/

/-- C1 counterexample: `ALTER INDEX ...` begins with a verb of the claimed
DdlIndex class (CREATE/ALTER/DROP INDEX), yet the write handler rejects it
with the ValueError gate message before any database event: the code's
allowed list contains only CREATE INDEX and DROP INDEX. -/
theorem c1_counterexample :
    strStartsWith (pyUpper (pyStrip ("ALTER INDEX IX1 ON T REBUILD"))) ("ALTER INDEX") = true ∧
    executeWriteQuery ("ALTER INDEX IX1 ON T REBUILD") dbThreeRows =
      (.error (.valueError ("Only INSERT, UPDATE, DELETE, CREATE/ALTER/DROP PROCEDURE, CREATE/ALTER/DROP VIEW, CREATE/DROP INDEX, and EXEC queries are allowed for write_query")), []) := by
  exact ⟨rfl, rfl⟩

/-- C1 (amended): the write action's allowed prefixes are exactly
INSERT/UPDATE/DELETE, CREATE/ALTER/DROP PROCEDURE, CREATE/ALTER/DROP VIEW,
CREATE/DROP INDEX (ALTER INDEX is not among them) and EXEC/EXECUTE; a
query with an allowed prefix is permitted and executed (its SQL reaches
the database once the connection opens), and any other text fails with
the ValueError gate message before any database event. -/
theorem c1_write_gate (q : String) (db : Db) :
    (writeAllowed q = true → db.connectOk = .ok () →
      Ev.exec q ∈ (executeWriteQuery q db).2) ∧
    (writeAllowed q = false →
      executeWriteQuery q db =
        (.error (.valueError ("Only INSERT, UPDATE, DELETE, CREATE/ALTER/DROP PROCEDURE, CREATE/ALTER/DROP VIEW, CREATE/DROP INDEX, and EXEC queries are allowed for write_query")), [])) ∧
    (writeAllowed q = true ↔
      (strStartsWith (pyUpper (pyStrip q)) ("INSERT") = true ∨
       strStartsWith (pyUpper (pyStrip q)) ("UPDATE") = true ∨
       strStartsWith (pyUpper (pyStrip q)) ("DELETE") = true ∨
       strStartsWith (pyUpper (pyStrip q)) ("CREATE PROCEDURE") = true ∨
       strStartsWith (pyUpper (pyStrip q)) ("ALTER PROCEDURE") = true ∨
       strStartsWith (pyUpper (pyStrip q)) ("DROP PROCEDURE") = true ∨
       strStartsWith (pyUpper (pyStrip q)) ("EXEC") = true ∨
       strStartsWith (pyUpper (pyStrip q)) ("EXECUTE") = true ∨
       strStartsWith (pyUpper (pyStrip q)) ("CREATE VIEW") = true ∨
       strStartsWith (pyUpper (pyStrip q)) ("ALTER VIEW") = true ∨
       strStartsWith (pyUpper (pyStrip q)) ("DROP VIEW") = true ∨
       strStartsWith (pyUpper (pyStrip q)) ("CREATE INDEX") = true ∨
       strStartsWith (pyUpper (pyStrip q)) ("DROP INDEX") = true)) := by
  refine ⟨?_, ?_, ?_⟩
  · intro hw hconn
    unfold executeWriteQuery
    simp only [hw, Bool.true_eq_false, if_false, hconn]
    cases hrun : db.run q with
    | error e => simp
    | ok res =>
      dsimp only
      split_ifs <;> simp
  · intro hw
    unfold executeWriteQuery
    simp [hw]
  · unfold writeAllowed allowedCommands
    simp [List.any_cons, List.any_nil, Bool.or_eq_true]

/-- C1 witness: an INSERT is executed, a SELECT is rejected by the write
gate with no database event. -/
theorem c1_witness :
    Ev.exec ("INSERT INTO T VALUES (1)") ∈
      (executeWriteQuery ("INSERT INTO T VALUES (1)") dbThreeRows).2 ∧
    executeWriteQuery ("SELECT 1") dbThreeRows =
      (.error (.valueError ("Only INSERT, UPDATE, DELETE, CREATE/ALTER/DROP PROCEDURE, CREATE/ALTER/DROP VIEW, CREATE/DROP INDEX, and EXEC queries are allowed for write_query")), []) := by
  constructor
  · exact (c1_write_gate ("INSERT INTO T VALUES (1)") dbThreeRows).1 (by decide) rfl
  · exact (c1_write_gate ("SELECT 1") dbThreeRows).2.1 (by decide)

/-! ### Claim C2: the class gate across tools -/

/-- C2 counterexample: the simplified database tool's READ operation does
not classify its statement — a DELETE submitted under READ reaches the
database (an `exec` event occurs) instead of aborting before any SQL
runs. -/
theorem c2_counterexample :
    executeDatabaseOperation (some ("READ")) (some ("DELETE FROM Orders")) dbNoRows =
      ([⟨"No results returned"⟩], [.connect, .exec ("DELETE FROM Orders")]) ∧
    Ev.exec ("DELETE FROM Orders") ∈
      (executeDatabaseOperation (some ("READ")) (some ("DELETE FROM Orders")) dbNoRows).2 := by
  exact ⟨rfl, by decide⟩

/-- C2 (amended): every main-server handler that carries an allowed
statement-class set — query read and write, table create, function
create/modify, procedure create/modify, view create/modify, index
create — aborts with its ValueError before any database event when the
statement's prefix does not match its allowed class; the simplified
database tool performs no classification: under any of its operations
the given SQL text reaches the database once the connection opens. -/
theorem c2_class_gate (q : String) (db : Db) :
    (strStartsWith (pyUpper (pyStrip q)) ("SELECT") = false →
      executeReadQuery q db =
        (.error (.valueError ("Only SELECT queries are allowed for read_query")), [])) ∧
    (writeAllowed q = false →
      executeWriteQuery q db =
        (.error (.valueError ("Only INSERT, UPDATE, DELETE, CREATE/ALTER/DROP PROCEDURE, CREATE/ALTER/DROP VIEW, CREATE/DROP INDEX, and EXEC queries are allowed for write_query")), [])) ∧
    (strStartsWith (pyUpper (pyStrip q)) ("CREATE TABLE") = false →
      createTable q db =
        (.error (.valueError ("Only CREATE TABLE statements are allowed")), [])) ∧
    (strStartsWith (pyUpper (pyStrip q)) ("CREATE FUNCTION") = false →
      createFunction q db =
        (.error (.valueError ("Only CREATE FUNCTION statements are allowed")), [])) ∧
    (strStartsWith (pyUpper (pyStrip q)) ("ALTER FUNCTION") = false →
      modifyFunction q db =
        (.error (.valueError ("Only ALTER FUNCTION statements are allowed")), [])) ∧
    (strStartsWith (pyUpper (pyStrip q)) ("CREATE PROCEDURE") = false →
      createProcedure q db =
        (.error (.valueError ("Only CREATE PROCEDURE statements are allowed")), [])) ∧
    (strStartsWith (pyUpper (pyStrip q)) ("ALTER PROCEDURE") = false →
      modifyProcedure q db =
        (.error (.valueError ("Only ALTER PROCEDURE statements are allowed")), [])) ∧
    (strStartsWith (pyUpper (pyStrip q)) ("CREATE VIEW") = false →
      createView q db =
        (.error (.valueError ("Only CREATE VIEW statements are allowed")), [])) ∧
    (strStartsWith (pyUpper (pyStrip q)) ("ALTER VIEW") = false →
      modifyView q db =
        (.error (.valueError ("Only ALTER VIEW statements are allowed")), [])) ∧
    (strStartsWith (pyUpper (pyStrip q)) ("CREATE INDEX") = false →
      createIndex q db =
        (.error (.valueError ("Only CREATE INDEX statements are allowed")), [])) ∧
    (q ≠ "" → db.connectOk = .ok () →
      Ev.exec q ∈ (executeDatabaseOperation (some ("READ")) (some q) db).2 ∧
      Ev.exec q ∈ (executeDatabaseOperation (some ("CREATE")) (some q) db).2 ∧
      Ev.exec q ∈ (executeDatabaseOperation (some ("UPDATE")) (some q) db).2 ∧
      Ev.exec q ∈ (executeDatabaseOperation (some ("DELETE")) (some q) db).2) := by
  refine ⟨?_, ?_, ?_, ?_, ?_, ?_, ?_, ?_, ?_, ?_, ?_⟩
  · intro h
    unfold executeReadQuery
    simp [h]
  · intro h
    unfold executeWriteQuery
    simp [h]
  · intro h
    unfold createTable
    simp [h]
  · intro h
    unfold createFunction
    simp [h]
  · intro h
    unfold modifyFunction
    simp [h]
  · intro h
    unfold createProcedure
    simp [h]
  · intro h
    unfold modifyProcedure
    simp [h]
  · intro h
    unfold createView
    simp [h]
  · intro h
    unfold modifyView
    simp [h]
  · intro h
    unfold createIndex
    simp [h]
  · intro hne hconn
    have hq : (q == "") = false := by
      simp [hne]
    refine ⟨?_, ?_, ?_, ?_⟩
    · cases hrun : db.run q with
      | error e => simp [executeDatabaseOperation, pyTruthyStr, hq, hconn, hrun]
      | ok res =>
        simp [executeDatabaseOperation, pyTruthyStr, hq, hconn, hrun]
        split <;> simp
    · cases hrun : db.run q with
      | error e => simp [executeDatabaseOperation, pyTruthyStr, hq, hconn, hrun]
      | ok res => simp [executeDatabaseOperation, pyTruthyStr, hq, hconn, hrun]
    · cases hrun : db.run q with
      | error e => simp [executeDatabaseOperation, pyTruthyStr, hq, hconn, hrun]
      | ok res => simp [executeDatabaseOperation, pyTruthyStr, hq, hconn, hrun]
    · cases hrun : db.run q with
      | error e => simp [executeDatabaseOperation, pyTruthyStr, hq, hconn, hrun]
      | ok res => simp [executeDatabaseOperation, pyTruthyStr, hq, hconn, hrun]

/-- C2 witness: each class gate rejects a mismatched statement with no
database event, while the simplified tool's UPDATE operation passes an
arbitrary DDL statement to the database. -/
theorem c2_witness :
    executeReadQuery ("DELETE FROM T") dbNoRows =
      (.error (.valueError ("Only SELECT queries are allowed for read_query")), []) ∧
    executeWriteQuery ("SELECT 2") dbNoRows =
      (.error (.valueError ("Only INSERT, UPDATE, DELETE, CREATE/ALTER/DROP PROCEDURE, CREATE/ALTER/DROP VIEW, CREATE/DROP INDEX, and EXEC queries are allowed for write_query")), []) ∧
    createTable ("CREATE VIEW V AS SELECT 1") dbNoRows =
      (.error (.valueError ("Only CREATE TABLE statements are allowed")), []) ∧
    createFunction ("CREATE TABLE T (id INT)") dbNoRows =
      (.error (.valueError ("Only CREATE FUNCTION statements are allowed")), []) ∧
    modifyFunction ("CREATE FUNCTION F() RETURNS INT AS BEGIN RETURN 1 END") dbNoRows =
      (.error (.valueError ("Only ALTER FUNCTION statements are allowed")), []) ∧
    createProcedure ("DROP PROCEDURE P") dbNoRows =
      (.error (.valueError ("Only CREATE PROCEDURE statements are allowed")), []) ∧
    modifyProcedure ("CREATE PROCEDURE P AS SELECT 1") dbNoRows =
      (.error (.valueError ("Only ALTER PROCEDURE statements are allowed")), []) ∧
    createView ("ALTER VIEW V AS SELECT 1") dbNoRows =
      (.error (.valueError ("Only CREATE VIEW statements are allowed")), []) ∧
    modifyView ("CREATE VIEW V2 AS SELECT 1") dbNoRows =
      (.error (.valueError ("Only ALTER VIEW statements are allowed")), []) ∧
    createIndex ("DROP INDEX IX ON T") dbNoRows =
      (.error (.valueError ("Only CREATE INDEX statements are allowed")), []) ∧
    Ev.exec ("DROP TABLE Orders") ∈
      (executeDatabaseOperation (some ("UPDATE")) (some ("DROP TABLE Orders")) dbNoRows).2 := by
  refine ⟨?_, ?_, ?_, ?_, ?_, ?_, ?_, ?_, ?_, ?_, ?_⟩
  · exact (c2_class_gate ("DELETE FROM T") dbNoRows).1 (by decide)
  · exact (c2_class_gate ("SELECT 2") dbNoRows).2.1 (by decide)
  · exact (c2_class_gate ("CREATE VIEW V AS SELECT 1") dbNoRows).2.2.1 (by decide)
  · exact (c2_class_gate ("CREATE TABLE T (id INT)") dbNoRows).2.2.2.1 (by decide)
  · exact (c2_class_gate ("CREATE FUNCTION F() RETURNS INT AS BEGIN RETURN 1 END")
      dbNoRows).2.2.2.2.1 (by decide)
  · exact (c2_class_gate ("DROP PROCEDURE P") dbNoRows).2.2.2.2.2.1 (by decide)
  · exact (c2_class_gate ("CREATE PROCEDURE P AS SELECT 1")
      dbNoRows).2.2.2.2.2.2.1 (by decide)
  · exact (c2_class_gate ("ALTER VIEW V AS SELECT 1")
      dbNoRows).2.2.2.2.2.2.2.1 (by decide)
  · exact (c2_class_gate ("CREATE VIEW V2 AS SELECT 1")
      dbNoRows).2.2.2.2.2.2.2.2.1 (by decide)
  · exact (c2_class_gate ("DROP INDEX IX ON T")
      dbNoRows).2.2.2.2.2.2.2.2.2.1 (by decide)
  · exact ((c2_class_gate ("DROP TABLE Orders") dbNoRows).2.2.2.2.2.2.2.2.2.2
      (by decide) rfl).2.2.1

/-! ### Claim C3: the single-request error boundary -/

/-- C3: for every tool name, argument mapping and handler behavior,
`call_tool` returns a plain text payload: whenever the dispatch body
(parameter access, dispatch, classification or execution inside any
handler) raises, the boundary converts the exception into an
`Error: ...` text carrying its description, and a successful body is
returned unchanged — in particular an unknown tool name becomes the
`Error: Unknown tool: ...` text. The same holds for the simplified
server's `call_tool`. No exception passes the boundary: both functions
are total and always produce a text list. -/
theorem c3_single_request_boundary (H : Handlers) (name : String) (args : Args)
    (sname : String) (sargs : List (String × String)) (db : Db) :
    (∀ e, dispatchTool H name args = .error e →
      callTool H name args = [⟨"Error: " ++ pyErrStr e⟩]) ∧
    (∀ ts, dispatchTool H name args = .ok ts → callTool H name args = ts) ∧
    (name ∉ knownTools →
      callTool H name args = [⟨"Error: Unknown tool: " ++ name⟩]) ∧
    (∀ e evs, simplifiedCallToolInner sname sargs db = (.error e, evs) →
      simplifiedCallTool sname sargs db = ([⟨"Error: " ++ pyErrStr e⟩], evs)) ∧
    (∀ ts evs, simplifiedCallToolInner sname sargs db = (.ok ts, evs) →
      simplifiedCallTool sname sargs db = (ts, evs)) := by
  refine ⟨?_, ?_, ?_, ?_, ?_⟩
  · intro e hd
    unfold callTool
    rw [hd]
  · intro ts hd
    unfold callTool
    rw [hd]
  · intro hnk
    simp only [knownTools, List.mem_cons, List.not_mem_nil, or_false, not_or] at hnk
    obtain ⟨h1, h2, h3, h4, h5, h6, h7, h8, h9⟩ := hnk
    unfold callTool dispatchTool
    rw [if_neg h1, if_neg h2, if_neg h3, if_neg h4, if_neg h5, if_neg h6, if_neg h7,
      if_neg h8, if_neg h9]
    rfl
  · intro e evs hin
    unfold simplifiedCallTool
    rw [hin]
  · intro ts evs hin
    unfold simplifiedCallTool
    rw [hin]

/-- C3 witness: a missing mandatory argument surfaces as `Error: 'sql'`, an
unknown tool as `Error: Unknown tool: ...`, on both servers. -/
theorem c3_witness :
    callTool trivialHandlers ("query") [("action", .vstr ("read"))] =
      [⟨"Error: \x27sql\x27"⟩] ∧
    callTool trivialHandlers ("nosuch") [] = [⟨"Error: Unknown tool: nosuch"⟩] ∧
    simplifiedCallTool ("bogus") [] dbNoRows =
      ([⟨"Error: Unknown tool: bogus"⟩], []) := by
  refine ⟨?_, ?_, ?_⟩
  · exact (c3_single_request_boundary trivialHandlers ("query")
      [("action", .vstr ("read"))] ("x") [] dbNoRows).1 (.keyError ("sql")) rfl
  · exact (c3_single_request_boundary trivialHandlers ("nosuch") [] ("x") []
      dbNoRows).2.2.1 (by decide)
  · exact (c3_single_request_boundary trivialHandlers ("query") [] ("bogus") []
      dbNoRows).2.2.2.1 (.valueError ("Unknown tool: bogus")) [] rfl

/-! ### Line-splitting lemmas for the CSV renderer -/

theorem splitNl_ne_nil (l : List Char) : splitNl l ≠ [] := by
  induction l with
  | nil => simp [splitNl]
  | cons c rest ih =>
    by_cases h : c = '\n'
    · simp [splitNl, h]
    · simp only [splitNl, if_neg h]
      cases hs : splitNl rest with
      | nil => simp
      | cons a t => simp

theorem splitNl_no_nl (l : List Char) (h : '\n' ∉ l) : splitNl l = [l] := by
  induction l with
  | nil => rfl
  | cons c rest ih =>
    have hc : c ≠ '\n' := fun he => h (he ▸ List.mem_cons_self c rest)
    have hr : '\n' ∉ rest := fun hm => h (List.mem_cons_of_mem _ hm)
    simp only [splitNl, if_neg hc, ih hr]

theorem splitNl_append_nl (a b : List Char) (h : '\n' ∉ a) :
    splitNl (a ++ '\n' :: b) = a :: splitNl b := by
  induction a with
  | nil => simp [splitNl]
  | cons c rest ih =>
    have hc : c ≠ '\n' := fun he => h (he ▸ List.mem_cons_self c rest)
    have hr : '\n' ∉ rest := fun hm => h (List.mem_cons_of_mem _ hm)
    simp only [List.cons_append, splitNl, if_neg hc, List.append_eq]
    rw [ih hr]

theorem linesFlat_eq_nlJoin (ls : List String) :
    ls ≠ [] → linesFlat ls = nlJoinChars (ls.map String.data) ++ ['\n'] := by
  induction ls with
  | nil => intro h; cases h rfl
  | cons s ls ih =>
    intro _
    cases ls with
    | nil => simp [linesFlat, nlJoinChars]
    | cons t ls2 =>
      have h2 := ih (by simp)
      show (s.data ++ ['\n']) ++ linesFlat (t :: ls2) = _
      rw [h2]
      simp [nlJoinChars, List.append_assoc]

theorem splitNl_linesFlat (ls : List String) (h : ∀ s ∈ ls, '\n' ∉ s.data) :
    splitNl (linesFlat ls) = ls.map String.data ++ [[]] := by
  induction ls with
  | nil => rfl
  | cons s ls ih =>
    have hs : '\n' ∉ s.data := h s (List.mem_cons_self s ls)
    have hrest : ∀ t ∈ ls, '\n' ∉ t.data := fun t ht => h t (List.mem_cons_of_mem _ ht)
    show splitNl ((s.data ++ ['\n']) ++ linesFlat ls) = _
    rw [List.append_assoc, List.singleton_append, splitNl_append_nl _ _ hs, ih hrest]
    rfl

theorem linesFlat_getLast (ls : List String) (h : ls ≠ []) :
    (linesFlat ls).getLast? = some '\n' := by
  induction ls with
  | nil => cases h rfl
  | cons s ls ih =>
    cases ls with
    | nil =>
      show ((s.data ++ ['\n']) ++ []).getLast? = some '\n'
      rw [List.append_nil]
      exact List.getLast?_concat _
    | cons t ls2 =>
      show ((s.data ++ ['\n']) ++ linesFlat (t :: ls2)).getLast? = some '\n'
      have h2 := ih (by simp)
      rw [List.getLast?_append, h2]
      rfl

theorem lstrip_of_head (l : List Char)
    (h : ∀ c, l.head? = some c → isPySpace c = false) : lstripChars l = l := by
  cases l with
  | nil => rfl
  | cons c rest =>
    have hc := h c rfl
    simp [lstripChars, List.dropWhile_cons, hc]

theorem rstrip_of_last (l : List Char)
    (h : ∀ c, l.getLast? = some c → isPySpace c = false) : rstripChars l = l := by
  unfold rstripChars
  cases hrev : l.reverse with
  | nil =>
    have : l = [] := List.reverse_eq_nil_iff.mp hrev
    simp [this]
  | cons c rest =>
    have hlast : l.getLast? = some c := by
      rw [List.getLast?_eq_head?_reverse, hrev]
      rfl
    have hc := h c hlast
    rw [List.dropWhile_cons_of_neg (by simp [hc]), ← hrev, List.reverse_reverse]

theorem rstrip_append_nl (body : List Char) :
    rstripChars (body ++ ['\n']) = rstripChars body := by
  unfold rstripChars
  rw [List.reverse_append]
  simp [isPySpace]

theorem pyStripChars_body_nl (body : List Char)
    (hhead : ∀ c, body.head? = some c → isPySpace c = false)
    (hlast : ∀ c, body.getLast? = some c → isPySpace c = false) :
    pyStripChars (body ++ ['\n']) = body := by
  unfold pyStripChars
  rw [rstrip_append_nl, rstrip_of_last _ hlast, lstrip_of_head _ hhead]

theorem splitNl_nlJoin (D : List (List Char)) (hne : D ≠ [])
    (h : ∀ l ∈ D, '\n' ∉ l) : splitNl (nlJoinChars D) = D := by
  induction D with
  | nil => cases hne rfl
  | cons l D ih =>
    cases D with
    | nil => exact splitNl_no_nl l (h l (List.mem_cons_self l []))
    | cons m D2 =>
      show splitNl (l ++ '\n' :: nlJoinChars (m :: D2)) = l :: m :: D2
      rw [splitNl_append_nl _ _ (h l (List.mem_cons_self l (m :: D2)))]
      rw [ih (by simp) (fun x hx => h x (List.mem_cons_of_mem _ hx))]

theorem readCsv_data (cols : List String) (rows : List (List (Option String))) :
    (readCsv cols rows).data = linesFlat (csvLines cols rows) := by
  have hfold : ∀ (rs : List (List (Option String))) (acc : String),
      (rs.foldl (fun a row => a ++ pyJoin (",") (row.map cellStr) ++ "\n") acc).data
        = acc.data ++ (rs.map (fun r => (pyJoin (",") (r.map cellStr)).data ++ ['\n'])).flatten := by
    intro rs
    induction rs with
    | nil => intro acc; simp
    | cons r rs ih =>
      intro acc
      rw [List.foldl_cons, ih]
      simp [String.data_append, List.append_assoc]
  unfold readCsv csvLines linesFlat
  rw [hfold]
  simp only [String.data_append, List.map_cons, List.flatten_cons, List.append_assoc]
  rw [List.map_map]
  rfl

theorem pyJoin_no_nl (xs : List String) (h : ∀ x ∈ xs, '\n' ∉ x.data) :
    '\n' ∉ (pyJoin (",") xs).data := by
  induction xs with
  | nil => simp [pyJoin]
  | cons s xs ih =>
    cases xs with
    | nil => exact h s (List.mem_cons_self s [])
    | cons t ys =>
      show '\n' ∉ ((s ++ ",") ++ pyJoin (",") (t :: ys)).data
      rw [String.data_append, String.data_append]
      intro hmem
      rcases List.mem_append.mp hmem with hmem2 | hmem2
      · rcases List.mem_append.mp hmem2 with hmem3 | hmem3
        · exact h s (List.mem_cons_self s (t :: ys)) hmem3
        · simp at hmem3
      · exact ih (fun x hx => h x (List.mem_cons_of_mem _ hx)) hmem2

theorem csvLines_no_nl (cols : List String) (rows : List (List (Option String)))
    (hcols : ∀ c ∈ cols, '\n' ∉ c.data)
    (hcells : ∀ r ∈ rows, ∀ v ∈ r, '\n' ∉ (cellStr v).data) :
    ∀ s ∈ csvLines cols rows, '\n' ∉ s.data := by
  intro s hs
  unfold csvLines at hs
  rcases List.mem_cons.mp hs with rfl | hs2
  · exact pyJoin_no_nl _ hcols
  · obtain ⟨r, hr, rfl⟩ := List.mem_map.mp hs2
    refine pyJoin_no_nl _ ?_
    intro x hx
    obtain ⟨v, hv, rfl⟩ := List.mem_map.mp hx
    exact hcells r hr v hv

theorem map_mk_data (ls : List String) :
    (ls.map String.data).map String.mk = ls := by
  induction ls with
  | nil => rfl
  | cons s ls ih =>
    simp only [List.map_cons]
    rw [ih]

theorem pySplitlines_linesFlat (ls : List String) (hne : ls ≠ [])
    (h : ∀ s ∈ ls, '\n' ∉ s.data) : pySplitlines ⟨linesFlat ls⟩ = ls := by
  have hflat_ne : linesFlat ls ≠ [] := by
    obtain ⟨s0, ls0, rfl⟩ : ∃ s0 ls0, ls = s0 :: ls0 := by
      cases ls with
      | nil => cases hne rfl
      | cons a b => exact ⟨a, b, rfl⟩
    show (s0.data ++ ['\n']) ++ linesFlat ls0 ≠ []
    simp
  unfold pySplitlines
  rw [if_neg hflat_ne, if_pos (linesFlat_getLast ls hne), splitNl_linesFlat ls h,
    List.dropLast_concat]
  exact map_mk_data ls

/-! ### Claim C5: shape of the rendered Read output -/

/-- C5 counterexample: with one row and one column whose cell stringifies
with an embedded newline, the returned text has 3 lines, not N+1 = 2 —
nothing is escaped, so embedded newlines break the line count. -/
theorem c5_counterexample :
    executeReadQuery ("SELECT c FROM T") dbRowsNl =
      (.ok [⟨"c\na\nb\n"⟩], [.connect, .exec ("SELECT c FROM T")]) ∧
    (pySplitlines ("c\na\nb\n")).length = 3 ∧
    [[some ("a\nb")]].length + 1 = 2 := by
  refine ⟨rfl, ?_, rfl⟩
  decide

/-- C5 (amended): provided no column name and no stringified cell contains
a newline, a Read of N rows and M columns renders exactly N+1 lines: the
comma-joined column names, then the comma-joined cells of each row in
order, NULL as the empty string, commas unescaped. The simplified
server's READ strips surrounding whitespace from the same text, so its
output has those N+1 lines additionally provided the text does not begin
or end with whitespace. -/
theorem c5_read_csv_lines (q : String) (db : Db) (res : QRes)
    (hsel : strStartsWith (pyUpper (pyStrip q)) ("SELECT") = true)
    (hconn : db.connectOk = .ok ())
    (hrun : db.run q = .ok res)
    (hne : res.rows ≠ [])
    (hcols : ∀ c ∈ res.cols, '\n' ∉ c.data)
    (hcells : ∀ r ∈ res.rows, ∀ v ∈ r, '\n' ∉ (cellStr v).data) :
    executeReadQuery q db =
      (.ok [⟨readCsv res.cols res.rows⟩], [.connect, .exec q]) ∧
    pySplitlines (readCsv res.cols res.rows) = csvLines res.cols res.rows ∧
    (pySplitlines (readCsv res.cols res.rows)).length = res.rows.length + 1 ∧
    ((∀ c, (nlJoinChars ((csvLines res.cols res.rows).map String.data)).head? = some c →
        isPySpace c = false) →
     (∀ c, (nlJoinChars ((csvLines res.cols res.rows).map String.data)).getLast? = some c →
        isPySpace c = false) →
      pySplitlines (pyStrip (readCsv res.cols res.rows)) = csvLines res.cols res.rows) := by
  have hls := csvLines_no_nl res.cols res.rows hcols hcells
  have hlsne : csvLines res.cols res.rows ≠ [] := by
    unfold csvLines
    simp
  have hdata : (readCsv res.cols res.rows).data = linesFlat (csvLines res.cols res.rows) :=
    readCsv_data res.cols res.rows
  have hstr : readCsv res.cols res.rows = ⟨linesFlat (csvLines res.cols res.rows)⟩ :=
    String.ext hdata
  refine ⟨?_, ?_, ?_, ?_⟩
  · unfold executeReadQuery
    simp only [hsel, Bool.true_eq_false, if_false, hconn, hrun]
    simp [hne]
  · rw [hstr]
    exact pySplitlines_linesFlat _ hlsne hls
  · rw [hstr, pySplitlines_linesFlat _ hlsne hls]
    unfold csvLines
    simp
  · intro hh hl
    have hbody : pyStrip (readCsv res.cols res.rows) =
        ⟨nlJoinChars ((csvLines res.cols res.rows).map String.data)⟩ := by
      unfold pyStrip
      rw [hdata, linesFlat_eq_nlJoin _ hlsne, pyStripChars_body_nl _ hh hl]
    rw [hbody]
    obtain ⟨r0, rest, hrows⟩ : ∃ r0 rest, res.rows = r0 :: rest := by
      cases hr : res.rows with
      | nil => cases hne hr
      | cons a b => exact ⟨a, b, rfl⟩
    have hDne : nlJoinChars ((csvLines res.cols res.rows).map String.data) ≠ [] := by
      unfold csvLines
      rw [hrows]
      simp [nlJoinChars]
    unfold pySplitlines
    rw [if_neg hDne]
    have hnotnl :
        (nlJoinChars ((csvLines res.cols res.rows).map String.data)).getLast? ≠
          some '\n' := by
      intro hEq
      have := hl '\n' hEq
      simp [isPySpace] at this
    rw [if_neg hnotnl]
    rw [splitNl_nlJoin _ (by simp [hlsne]) ?hD]
    case hD =>
      intro l hlmem
      obtain ⟨t, ht, rfl⟩ := List.mem_map.mp hlmem
      exact hls t ht
    exact map_mk_data _

/-- C5 witness: two columns, one row with a NULL cell — two lines on both
servers. -/
theorem c5_witness :
    pySplitlines (readCsv ["id", "name"] [[some ("1"), none]]) = ["id,name", "1,"] ∧
    (pySplitlines (readCsv ["id", "name"] [[some ("1"), none]])).length = 1 + 1 ∧
    pySplitlines (pyStrip (readCsv ["id", "name"] [[some ("1"), none]])) =
      ["id,name", "1,"] := by
  have h := c5_read_csv_lines ("SELECT 1") dbOneRow
    ⟨["id", "name"], [[some ("1"), none]], 1⟩ (by decide) rfl rfl (by decide)
    (by decide) (by decide)
  refine ⟨h.2.1, h.2.2.1, ?_⟩
  refine h.2.2.2 ?_ ?_
  · intro c hc
    have h2 : some 'i' = some c := hc
    cases h2
    decide
  · intro c hc
    have h2 : some ',' = some c := hc
    cases h2
    decide

/-! ### Password-masking lemmas -/

theorem pwdMask_nil : pwdMask [] = [] := by
  rw [pwdMask.eq_def]

theorem pwdMask_cons_no_match (c : Char) (rest : List Char)
    (h : prefixChars pwdPat (c :: rest) = false) :
    pwdMask (c :: rest) = c :: pwdMask rest := by
  conv_lhs => rw [pwdMask.eq_def]
  simp [h]

theorem dropWhile_semi (p suf : List Char) (hp : ';' ∉ p) :
    (p ++ ';' :: suf).dropWhile (fun x => x ≠ ';') = ';' :: suf := by
  induction p with
  | nil =>
    rw [List.nil_append, List.dropWhile_cons_of_neg]
    simp
  | cons a p ih =>
    have ha : a ≠ ';' := fun he => hp (he ▸ List.mem_cons_self a p)
    have hp2 : ';' ∉ p := fun hm => hp (List.mem_cons_of_mem _ hm)
    rw [List.cons_append, List.dropWhile_cons_of_pos (by simp [ha]), ih hp2]

theorem pwdMask_match (p suf : List Char) (hp : ';' ∉ p) :
    pwdMask (pwdPat ++ (p ++ ';' :: suf)) = pwdMaskPat ++ pwdMask suf := by
  have hc : prefixChars pwdPat
      ('P' :: ('W' :: 'D' :: '=' :: (p ++ ';' :: suf))) = true := rfl
  have hdrop : ((('W' :: 'D' :: '=' :: (p ++ ';' :: suf)).drop 3).dropWhile
      (fun x => x ≠ ';')) = ';' :: suf := by
    show ((p ++ ';' :: suf).dropWhile (fun x => x ≠ ';')) = ';' :: suf
    exact dropWhile_semi p suf hp
  show pwdMask ('P' :: ('W' :: 'D' :: '=' :: (p ++ ';' :: suf))) = _
  conv_lhs => rw [pwdMask.eq_def]
  dsimp only
  rw [hc, if_pos rfl, hdrop]
  rw [if_neg (by simp)]
  rfl

theorem pwdMask_append_front (pre rest : List Char)
    (h : ∀ i, i < pre.length → prefixChars pwdPat ((pre ++ rest).drop i) = false) :
    pwdMask (pre ++ rest) = pre ++ pwdMask rest := by
  induction pre with
  | nil => simp
  | cons c pre ih =>
    have h0 := h 0 (by simp)
    rw [List.drop_zero, List.cons_append] at h0
    have hrec : pwdMask (pre ++ rest) = pre ++ pwdMask rest := by
      apply ih
      intro i hi
      have h2 := h (i + 1) (by simp only [List.length_cons]; omega)
      rw [List.cons_append] at h2
      simpa using h2
    rw [List.cons_append, pwdMask_cons_no_match _ _ h0, hrec, List.cons_append]

theorem pwdMask_id_of_no_occur (l : List Char)
    (h : ∀ i, prefixChars pwdPat (l.drop i) = false) : pwdMask l = l := by
  induction l with
  | nil => exact pwdMask_nil
  | cons c rest ih =>
    have h0 := h 0
    rw [List.drop_zero] at h0
    rw [pwdMask_cons_no_match _ _ h0]
    rw [ih (fun i => by simpa using h (i + 1))]

theorem prefixChars_append_left (pat a b : List Char) (hlen : pat.length ≤ a.length)
    (h : prefixChars pat (a ++ b) = true) : prefixChars pat a = true := by
  obtain ⟨t, ht⟩ := (prefixChars_iff _ _).mp h
  apply (prefixChars_iff _ _).mpr
  refine ⟨a.drop pat.length, ?_⟩
  have htake : a.take pat.length = pat := by
    have h2 : (a ++ b).take pat.length = pat := by
      rw [ht, List.take_append_of_le_length (le_refl pat.length), List.take_length]
    rw [List.take_append_of_le_length hlen] at h2
    exact h2
  conv_lhs => rw [← List.take_append_drop pat.length a]
  rw [htake]

theorem subChars_false_drop (pat l : List Char) (hpat : pat ≠ [])
    (h : subChars pat l = false) : ∀ i, prefixChars pat (l.drop i) = false := by
  intro i
  cases hpc : prefixChars pat (l.drop i) with
  | false => rfl
  | true =>
    by_cases hi : i ≤ l.length
    · have htrue : subChars pat l = true :=
        List.any_eq_true.mpr ⟨i, by simp only [List.mem_range]; omega, hpc⟩
      rw [htrue] at h
      cases h
    · have hdrop : l.drop i = [] := List.drop_eq_nil_of_le (by omega)
      rw [hdrop] at hpc
      cases pat with
      | nil => cases hpat rfl
      | cons a as => simp [prefixChars] at hpc

theorem no_occur_straddle (pre rest2 : List Char)
    (hpre : subChars pwdPat pre = false) :
    ∀ i, i < pre.length →
      prefixChars pwdPat ((pre ++ (pwdPat ++ rest2)).drop i) = false := by
  intro i hi
  cases hcon : prefixChars pwdPat ((pre ++ (pwdPat ++ rest2)).drop i) with
  | false => rfl
  | true =>
    exfalso
    rw [List.drop_append_of_le_length (le_of_lt hi)] at hcon
    by_cases hfit : i + 4 ≤ pre.length
    · have hlen : pwdPat.length ≤ (pre.drop i).length := by
        simp only [pwdPat, List.length_cons, List.length_nil, List.length_drop]
        omega
      have hp := prefixChars_append_left _ _ _ hlen hcon
      have htrue : subChars pwdPat pre = true :=
        List.any_eq_true.mpr ⟨i, by simp only [List.mem_range]; omega, hp⟩
      rw [htrue] at hpre
      cases hpre
    · obtain ⟨t, ht⟩ := (prefixChars_iff _ _).mp hcon
      have hlen : (pre.drop i).length = pre.length - i := List.length_drop i pre
      have hk : pre.length - i = 1 ∨ pre.length - i = 2 ∨ pre.length - i = 3 := by
        omega
      rcases hk with hk | hk | hk
      · obtain ⟨x, hax⟩ := List.length_eq_one.mp (hlen.trans hk)
        rw [hax] at ht
        simp [pwdPat] at ht
      · obtain ⟨x, y, hax⟩ := List.length_eq_two.mp (hlen.trans hk)
        rw [hax] at ht
        simp [pwdPat] at ht
      · obtain ⟨x, y, z, hax⟩ := List.length_eq_three.mp (hlen.trans hk)
        rw [hax] at ht
        simp [pwdPat] at ht

theorem pwdMask_decompose (pre p suf : List Char)
    (hpre : subChars pwdPat pre = false) (hp : ';' ∉ p)
    (hsuf : subChars pwdPat suf = false) :
    pwdMask (pre ++ (pwdPat ++ (p ++ ';' :: suf))) = pre ++ (pwdMaskPat ++ suf) := by
  rw [pwdMask_append_front pre _ (no_occur_straddle pre _ hpre)]
  rw [pwdMask_match p suf hp]
  rw [pwdMask_id_of_no_occur suf (subChars_false_drop pwdPat suf (by simp [pwdPat]) hsuf)]

theorem build_sql (c : Config) (hsrv : ¬ c.server = "") (hauth : c.auth_method = "sql")
    (huser : ¬ c.username = "") (hpwd : ¬ c.password = "") :
    buildConnectionString c =
      .ok (connPre c ++ ("PWD=" ++ (c.password ++ (";" ++ connSuf c)))) := by
  unfold buildConnectionString connPre connSuf
  rw [if_neg hsrv,
    if_pos (show c.auth_method = "sql" ∧ ¬c.username = "" ∧ ¬c.password = "" from
      ⟨hauth, huser, hpwd⟩)]
  refine congrArg Except.ok (String.ext ?_)
  simp [String.data_append, List.append_assoc]

theorem connStr_data (c : Config) :
    (connPre c ++ ("PWD=" ++ (c.password ++ (";" ++ connSuf c)))).data =
      (connPre c).data ++ (pwdPat ++ (c.password.data ++ (';' :: (connSuf c).data))) := by
  simp [String.data_append, pwdPat]

/-! ### Claim C9: sanitizing the connection string -/

set_option maxRecDepth 16384

/-- C9 counterexample: with username equal to password, the sanitized
string masks the PWD segment yet still contains the password value — it
appears verbatim in the UID segment — so "never contains the password
value" fails as stated. -/
theorem c9_counterexample :
    buildConnectionString cfgLeaky = .ok leakyStr ∧
    sanitizeConnectionString leakyStr = leakyMasked ∧
    strContainsSub (cfgLeaky.password) leakyMasked = true := by
  refine ⟨by decide, ?_, by decide⟩
  unfold sanitizeConnectionString
  rw [if_pos (by decide)]
  refine String.ext ?_
  have hshape : leakyStr.data =
      ("DRIVER=ODBCDriver18;SERVER=localhost,1433;DATABASE=master;UID=secret;" : String).data ++
        (pwdPat ++ (("secret" : String).data ++
          (';' :: ("Trusted_Connection=no;TrustServerCertificate=yes;" : String).data))) := by
    decide
  rw [hshape, pwdMask_decompose _ _ _ (by decide) (by decide) (by decide)]
  decide

/-- C9 (amended): for every configuration using SQL authentication whose
password is non-empty and semicolon-free, and whose other fields do not
smuggle a `PWD=` marker into the surrounding text, the sanitized string
is exactly the connection string built with the password replaced by
`***`: the `PWD=` segment is masked and every other segment is unchanged.
The password value itself can still appear when another field (such as
the username) carries it. -/
theorem c9_sanitize_masks_password (c : Config)
    (hauth : c.auth_method = "sql") (huser : ¬ c.username = "")
    (hpwd : ¬ c.password = "") (hsemi : ';' ∉ c.password.data)
    (hpre : subChars pwdPat (connPre c).data = false)
    (hsuf : subChars pwdPat (connSuf c).data = false)
    (s : String) (hs : buildConnectionString c = .ok s) :
    sanitizeConnectionString s = connPre c ++ ("PWD=***;" ++ connSuf c) ∧
    buildConnectionString
      ⟨c.driver, c.server, c.database, c.username, "***", c.port, c.trust_cert,
       c.trusted_conn, c.auth_method⟩ =
      .ok (connPre c ++ ("PWD=***;" ++ connSuf c)) := by
  have hsrv : ¬ c.server = "" := by
    intro hc
    unfold buildConnectionString at hs
    rw [if_pos hc] at hs
    cases hs
  have hbuild := build_sql c hsrv hauth huser hpwd
  rw [hbuild] at hs
  injection hs with hs2
  subst hs2
  constructor
  · unfold sanitizeConnectionString
    have hcontains : strContainsSub ("PWD=")
        (connPre c ++ ("PWD=" ++ (c.password ++ (";" ++ connSuf c)))) = true := by
      unfold strContainsSub
      rw [show ("PWD=" : String).data = pwdPat from rfl, connStr_data c]
      exact subChars_of_split _ _ _
    rw [if_pos hcontains]
    refine String.ext ?_
    rw [connStr_data c, pwdMask_decompose _ _ _ hpre hsemi hsuf]
    have h3 : ("PWD=***;" : String).data = pwdMaskPat := rfl
    simp [String.data_append, h3, pwdMaskPat]
  · have hb2 := build_sql
      ⟨c.driver, c.server, c.database, c.username, "***", c.port, c.trust_cert,
       c.trusted_conn, c.auth_method⟩ hsrv hauth huser (by simp)
    rw [hb2]
    refine congrArg Except.ok (String.ext ?_)
    have h3 : ("PWD=***;" : String).data = pwdMaskPat := rfl
    simp [String.data_append, connPre, connSuf, h3, pwdMaskPat, List.append_assoc]

/-- C9 witness: a concrete SQL-authentication configuration whose sanitized
connection string carries `PWD=***;` and is otherwise identical. -/
theorem c9_witness :
    sanitizeConnectionString witnessStr = witnessMasked ∧
    buildConnectionString
      ⟨"ODBCDriver18", "localhost", "master", "sa", "***", "1433", "yes", "no", "sql"⟩ =
      .ok witnessMasked := by
  have h := c9_sanitize_masks_password cfgWitness (by decide) (by decide) (by decide)
    (by decide) (by decide) (by decide) witnessStr (by decide)
  constructor
  · exact h.1.trans (by decide)
  · exact h.2.trans (by decide)
